import Mathlib

/-!
Verification development for the Billtrust Collections client library
(src/billtrust-collections.py).  The library builds JSON request bodies by
string concatenation and parses them with Python's json.loads before sending;
reads decode JSON responses.  We embed:

* a JSON value type (JValue) mirroring the values json.loads produces
  (dicts are insertion-ordered association lists with last-write-wins keys),
* a faithful model of json.loads (strict mode: control characters rejected
  inside strings, the standard escape set, numbers kept as lexemes,
  NaN / Infinity / -Infinity accepted as Python does; the one deviation is
  that lone-surrogate \uXXXX escapes are rejected because Lean's Char has no
  surrogates - no string in this development contains a \u escape),
* the request-body builders, defaulting and sanitization of the source,
* the per-endpoint functions as functions of an abstract HTTP outcome
  (the single requests.* call each function makes), with Python exception
  behaviour made explicit, including reads of unbound locals.
-/

set_option maxRecDepth 20000

/-- JSON values as produced by Python's json.loads: objects are
insertion-ordered key/value lists (Python dicts); numbers are kept as their
source lexemes since no code in the repository inspects numeric values. -/
inductive JValue where
  | str : String → JValue
  | num : String → JValue
  | bool : Bool → JValue
  | null : JValue
  | arr : List JValue → JValue
  | obj : List (String × JValue) → JValue

/-- Python exceptions that the modelled code can raise or catch. -/
inductive PyErr where
  | httpError
  | jsonDecodeError
  | keyError
  | typeError
  | requestError
  | unboundLocal
deriving DecidableEq

/-- Outcome of one completed HTTP exchange: the status code and the raw
response body text (Response.json() decodes this text). -/
structure HttpResult where
  status : Nat
  bodyText : String

/-- The single HTTP request a function builds and sends. -/
structure HttpRequest where
  method : String
  uri : String
  headers : List (String × String)
  body : Option JValue

/-- Whitespace characters skipped by Python's json decoder (' \t\n\r'). -/
def isWsChar (c : Char) : Bool := c = ' ' || c = '\x09' || c = '\x0a' || c = '\x0d'

/-- Skip leading JSON whitespace. -/
def skipWs : List Char → List Char
  | [] => []
  | c :: rest => if isWsChar c then skipWs rest else c :: rest

/-- Single-character JSON string escapes accepted by Python's json decoder. -/
def escChar : Char → Option Char
  | '\x22' => some '\x22'
  | '\x5c' => some '\x5c'
  | '/' => some '/'
  | 'b' => some (Char.ofNat 8)
  | 'f' => some (Char.ofNat 12)
  | 'n' => some (Char.ofNat 10)
  | 'r' => some (Char.ofNat 13)
  | 't' => some (Char.ofNat 9)
  | _ => none

/-- Value of one hex digit, as in \uXXXX escapes. -/
def hexDigit (c : Char) : Option Nat :=
  if '0' ≤ c ∧ c ≤ '9' then some (c.toNat - 48)
  else if 'a' ≤ c ∧ c ≤ 'f' then some (c.toNat - 87)
  else if 'A' ≤ c ∧ c ≤ 'F' then some (c.toNat - 55)
  else none

/-- Parse the body of a JSON string literal (the opening quote already
consumed), in strict mode: raw control characters below 0x20 are rejected,
escapes are decoded.  Returns the decoded characters and the input after the
closing quote. -/
def parseStrBody : List Char → Option (List Char × List Char)
  | [] => none
  | c :: rest =>
    if c = '\x22' then some ([], rest)
    else if c = '\x5c' then
      match rest with
      | [] => none
      | e :: rest2 =>
        if e = 'u' then
          match rest2 with
          | h1 :: h2 :: h3 :: h4 :: rest6 =>
            match hexDigit h1, hexDigit h2, hexDigit h3, hexDigit h4 with
            | some a, some b, some c2, some d =>
              let n := ((a * 16 + b) * 16 + c2) * 16 + d
              if n < 0xd800 ∨ 0xdfff < n then
                match parseStrBody rest6 with
                | some (cs, r) => some (Char.ofNat n :: cs, r)
                | none => none
              else none
            | _, _, _, _ => none
          | _ => none
        else
          match escChar e with
          | some d =>
            match parseStrBody rest2 with
            | some (cs, r) => some (d :: cs, r)
            | none => none
          | none => none
    else if c.toNat < 32 then none
    else
      match parseStrBody rest with
      | some (cs, r) => some (c :: cs, r)
      | none => none

/-- Longest prefix of decimal digits, and the rest. -/
def spanDigits : List Char → List Char × List Char
  | [] => ([], [])
  | c :: r =>
    if c.isDigit then
      match spanDigits r with
      | (d, r2) => (c :: d, r2)
    else ([], c :: r)

/-- Integer part of a JSON number (0 or [1-9][0-9]*), first char given. -/
def parseIntTail (c : Char) (rest : List Char) : Option (List Char × List Char) :=
  if c = '0' then some ([c], rest)
  else if c.isDigit then
    match spanDigits rest with
    | (d, r) => some (c :: d, r)
  else none

/-- Optional fractional part of a JSON number. -/
def parseFracPart : List Char → List Char × List Char
  | '.' :: r =>
    match spanDigits r with
    | ([], _) => ([], '.' :: r)
    | (d, r2) => ('.' :: d, r2)
  | s => ([], s)

/-- Optional exponent part of a JSON number. -/
def parseExpPart : List Char → List Char × List Char
  | [] => ([], [])
  | c :: r =>
    if c = 'e' ∨ c = 'E' then
      match r with
      | [] => ([], [c])
      | sgn :: r2 =>
        if sgn = '+' ∨ sgn = '-' then
          match spanDigits r2 with
          | ([], _) => ([], c :: sgn :: r2)
          | (d, r3) => (c :: sgn :: d, r3)
        else
          match spanDigits r with
          | ([], _) => ([], c :: r)
          | (d, r3) => (c :: d, r3)
    else ([], c :: r)

/-- Parse a JSON number whose first character c has been consumed; the lexeme
is kept verbatim (mirrors Python's NUMBER_RE). -/
def parseNumber (c : Char) (rest : List Char) : Option (JValue × List Char) :=
  if c = '-' then
    match rest with
    | [] => none
    | c2 :: r2 =>
      match parseIntTail c2 r2 with
      | some (ip, r3) =>
        match parseFracPart r3 with
        | (fp, r4) =>
          match parseExpPart r4 with
          | (ep, r5) => some (JValue.num (String.mk ('-' :: (ip ++ fp ++ ep))), r5)
      | none => none
  else
    match parseIntTail c rest with
    | some (ip, r3) =>
      match parseFracPart r3 with
      | (fp, r4) =>
        match parseExpPart r4 with
        | (ep, r5) => some (JValue.num (String.mk (ip ++ fp ++ ep)), r5)
    | none => none

/-- Python dict assignment d[k] = v: overwrite in place if the key exists,
append otherwise (insertion order preserved, as in CPython dicts). -/
def insertKey : List (String × JValue) → String → JValue → List (String × JValue)
  | [], k, v => [(k, v)]
  | (k2, v2) :: rest, k, v =>
    if k2 = k then (k2, v) :: rest else (k2, v2) :: insertKey rest k v

/-- Lookup in a parsed object (keys are unique by construction). -/
def lookupKey : List (String × JValue) → String → Option JValue
  | [], _ => none
  | (k2, v) :: rest, k => if k2 = k then some v else lookupKey rest k

mutual

/-- Parse one JSON value, skipping leading whitespace, following Python's
json scanner (with NaN / Infinity / -Infinity constants).  Fuel bounds the
recursion; json_loads supplies more fuel than any input can consume. -/
def parseValue : Nat → List Char → Option (JValue × List Char)
  | 0, _ => none
  | fuel + 1, s =>
    match skipWs s with
    | [] => none
    | c :: rest =>
      if c = '\x22' then
        match parseStrBody rest with
        | some (cs, r) => some (JValue.str (String.mk cs), r)
        | none => none
      else if c = '\x7b' then
        match skipWs rest with
        | '\x7d' :: r => some (JValue.obj [], r)
        | _ =>
          match parseMembers fuel [] rest with
          | some (l, r) => some (JValue.obj l, r)
          | none => none
      else if c = '[' then
        match skipWs rest with
        | ']' :: r => some (JValue.arr [], r)
        | _ =>
          match parseItems fuel [] rest with
          | some (l, r) => some (JValue.arr l, r)
          | none => none
      else if c = 't' then
        match rest with
        | 'r' :: 'u' :: 'e' :: r => some (JValue.bool true, r)
        | _ => none
      else if c = 'f' then
        match rest with
        | 'a' :: 'l' :: 's' :: 'e' :: r => some (JValue.bool false, r)
        | _ => none
      else if c = 'n' then
        match rest with
        | 'u' :: 'l' :: 'l' :: r => some (JValue.null, r)
        | _ => none
      else if c = 'N' then
        match rest with
        | 'a' :: 'N' :: r => some (JValue.num "NaN", r)
        | _ => none
      else if c = 'I' then
        match rest with
        | 'n' :: 'f' :: 'i' :: 'n' :: 'i' :: 't' :: 'y' :: r => some (JValue.num "Infinity", r)
        | _ => none
      else if c = '-' then
        match rest with
        | 'I' :: 'n' :: 'f' :: 'i' :: 'n' :: 'i' :: 't' :: 'y' :: r =>
          some (JValue.num "-Infinity", r)
        | _ => parseNumber c rest
      else if c.isDigit then parseNumber c rest
      else none

/-- Parse the members of a JSON object after its opening brace, accumulating
into a Python dict (insertKey). -/
def parseMembers : Nat → List (String × JValue) → List Char →
    Option (List (String × JValue) × List Char)
  | 0, _, _ => none
  | fuel + 1, acc, s =>
    match skipWs s with
    | '\x22' :: rest =>
      match parseStrBody rest with
      | some (k, r1) =>
        match skipWs r1 with
        | ':' :: r2 =>
          match parseValue fuel r2 with
          | some (v, r3) =>
            match skipWs r3 with
            | ',' :: r4 => parseMembers fuel (insertKey acc (String.mk k) v) r4
            | '\x7d' :: r4 => some (insertKey acc (String.mk k) v, r4)
            | _ => none
          | none => none
        | _ => none
      | none => none
    | _ => none

/-- Parse the items of a JSON array after its opening bracket. -/
def parseItems : Nat → List JValue → List Char → Option (List JValue × List Char)
  | 0, _, _ => none
  | fuel + 1, acc, s =>
    match parseValue fuel s with
    | some (v, r) =>
      match skipWs r with
      | ',' :: r2 => parseItems fuel (acc ++ [v]) r2
      | ']' :: r2 => some (acc ++ [v], r2)
      | _ => none
    | none => none

end

/-- Model of Python json.loads: parse one value, then require only trailing
whitespace ("Extra data" otherwise); none models a raised ValueError. -/
def json_loads (s : String) : Option JValue :=
  match parseValue (s.data.length + 1) s.data with
  | some (v, rest) =>
    match skipWs rest with
    | [] => some v
    | _ => none
  | none => none

/-- Python subscript j[k] on a decoded JSON value: KeyError when an object
lacks the key, TypeError when j is not an object (list/str/int/... indexed by
a str). -/
def pySubscript (j : JValue) (k : String) : Except PyErr JValue :=
  match j with
  | JValue.obj l =>
    match lookupKey l k with
    | some v => Except.ok v
    | none => Except.error PyErr.keyError
  | _ => Except.error PyErr.typeError

/-- Python equality test between a decoded JSON value and a str: true exactly
when the value is an equal str. -/
def jeqStr (j : JValue) (s : String) : Bool :=
  match j with
  | JValue.str t => t == s
  | _ => false

/-- Python notes.replace('"', '') / notes.replace("'", ''): str.replace with a
one-character pattern and empty replacement removes every occurrence. -/
def removeChar (c : Char) (s : String) : String :=
  String.mk (s.data.filter (fun d => d ≠ c))

/-- Notes sanitization shared by add_contact_to_account and contact_update
(source lines 223-224 and 474-475): strip double quotes, then single
quotes. -/
def stripNotes (notes : String) : String :=
  removeChar (Char.ofNat 39) (removeChar '\x22' notes)

/-- Python first_name.replace("\x5c", "\x5c\x5c"): str.replace with the
one-character backslash pattern doubles every backslash. -/
def escBackslash (s : String) : String :=
  String.mk (s.data.foldr (fun c acc => if c = '\x5c' then '\x5c' :: '\x5c' :: acc else c :: acc) [])

/-- Language defaulting (source lines 226-227 and 477-478). -/
def defaultLanguage (language : String) : String :=
  if language.length < 2 then "en" else language

/-- Timezone defaulting (source lines 229-230 and 480-481). -/
def defaultTimezone (timezone : String) : String :=
  if timezone.length < 4 then "America/Chicago" else timezone

/-- contact_body_string of add_contact_to_account (source lines 237-250),
after the field transformations: literal-for-literal transcription of the
string concatenation ('"..." : "{}", '.format(x) is '"..." : "' + x + '", '
for str x).  Literal braces are written as their \x7b/\x7d escapes. -/
def contact_body_string (first_name last_name language notes email officePhone
    cellPhone fax title address1 address2 timezone includeInCorrespondence : String) : String :=
  "\x7b " ++ ("\x22firstName\x22 : \x22" ++ first_name ++ "\x22, ")
    ++ ("  \x22lastName\x22  : \x22" ++ last_name ++ "\x22, ")
    ++ ("  \x22language\x22  : \x22" ++ language ++ "\x22, ")
    ++ ("  \x22notes\x22  : \x22" ++ notes ++ "\x22, ")
    ++ ("  \x22email\x22  : \x22" ++ email ++ "\x22, ")
    ++ ("  \x22officePhone\x22  : \x22" ++ officePhone ++ "\x22, ")
    ++ ("  \x22cellPhone\x22  : \x22" ++ cellPhone ++ "\x22, ")
    ++ ("  \x22fax\x22  : \x22" ++ fax ++ "\x22, ")
    ++ ("  \x22title\x22  : \x22" ++ title ++ "\x22, ")
    ++ ("  \x22address1\x22  : \x22" ++ address1 ++ "\x22, ")
    ++ ("  \x22address2\x22  : \x22" ++ address2 ++ "\x22, ")
    ++ ("  \x22timezone\x22  : \x22" ++ timezone ++ "\x22, ")
    ++ ("  \x22IncludeInCorrespondence\x22 : \x22" ++ includeInCorrespondence ++ "\x22 ")
    ++ " \x7d"

/-- Body string add_contact_to_account feeds to json.loads, as a function of
the raw arguments: notes stripped (lines 223-224), language/timezone
defaulted (226-230), backslashes doubled in first and last name (235-236),
then the concatenation of lines 237-250.  city, state, zip, country,
updatedOn and updatedBy do not reach the body. -/
def add_contact_body (first_name last_name language timezone notes email officePhone
    cellPhone fax title address1 address2 includeInCorrespondence : String) : String :=
  contact_body_string (escBackslash first_name) (escBackslash last_name)
    (defaultLanguage language) (stripNotes notes) email officePhone cellPhone fax title
    address1 address2 (defaultTimezone timezone) includeInCorrespondence

/-- update_body_string of contact_update (source lines 484-569): the
PATCH-style body built by string concatenation, transcribed chunk for chunk
(format(x) is x for str x); no escaping of any field. -/
def update_body_string (first_name last_name language notes email officePhone
    cellPhone fax title address1 address2 city state zip country timezone
    includeInCorrespondence : String) : String :=
  "[\x7b"
    ++ ("\x22value\x22 : \x22" ++ first_name ++ "\x22, ")
    ++ "\x22path\x22 : \x22FirstName\x22, "
    ++ "\x22op\x22 : \x22replace\x22 "
    ++ "\x7d, "
    ++ "\x7b"
    ++ ("\x22value\x22 : \x22" ++ last_name ++ "\x22, ")
    ++ "\x22path\x22 : \x22LastName\x22, "
    ++ "\x22op\x22 : \x22replace\x22 "
    ++ "\x7d, "
    ++ "\x7b"
    ++ ("\x22value\x22 : \x22" ++ language ++ "\x22, ")
    ++ "\x22path\x22 : \x22Language\x22, "
    ++ "\x22op\x22 : \x22replace\x22"
    ++ "\x7d, "
    ++ "\x7b"
    ++ ("\x22value\x22 : \x22" ++ notes ++ "\x22, ")
    ++ "    \x22path\x22 : \x22Notes\x22, "
    ++ "    \x22op\x22 : \x22replace\x22 "
    ++ "  \x7d, "
    ++ "  \x7b  "
    ++ ("    \x22value\x22 : \x22" ++ email ++ "\x22, ")
    ++ "    \x22path\x22 : \x22Email\x22, "
    ++ "    \x22op\x22 : \x22replace\x22 "
    ++ "  \x7d, "
    ++ "  \x7b  "
    ++ ("    \x22value\x22 : \x22" ++ officePhone ++ "\x22, ")
    ++ "    \x22path\x22 : \x22OfficePhone\x22, "
    ++ "    \x22op\x22 : \x22replace\x22 "
    ++ "  \x7d, "
    ++ " \x7b"
    ++ ("    \x22value\x22 : \x22" ++ cellPhone ++ "\x22, ")
    ++ "    \x22path\x22 : \x22CellPhone\x22, "
    ++ "    \x22op\x22 : \x22replace\x22 "
    ++ "\x7d,  "
    ++ " \x7b"
    ++ ("    \x22value\x22 : \x22" ++ fax ++ "\x22, ")
    ++ "    \x22path\x22 : \x22Fax\x22, "
    ++ "    \x22op\x22 : \x22replace\x22 "
    ++ "\x7d,  "
    ++ "  \x7b  "
    ++ ("    \x22value\x22 : \x22" ++ title ++ "\x22, ")
    ++ "    \x22path\x22 : \x22Title\x22, "
    ++ "    \x22op\x22 : \x22replace\x22 "
    ++ "\x7d,  "
    ++ "  \x7b  "
    ++ ("    \x22value\x22 : \x22" ++ address1 ++ "\x22, ")
    ++ "    \x22path\x22 : \x22Address1\x22, "
    ++ "    \x22op\x22 : \x22replace\x22 "
    ++ "\x7d,  "
    ++ "  \x7b  "
    ++ ("    \x22value\x22 : \x22" ++ address2 ++ "\x22, ")
    ++ "    \x22path\x22 : \x22Address2\x22, "
    ++ "    \x22op\x22 : \x22replace\x22 "
    ++ "\x7d,  "
    ++ "  \x7b  "
    ++ ("    \x22value\x22 : \x22" ++ city ++ "\x22, ")
    ++ "    \x22path\x22 : \x22City\x22, "
    ++ "    \x22op\x22 : \x22replace\x22 "
    ++ "\x7d,  "
    ++ "  \x7b  "
    ++ ("    \x22value\x22 : \x22" ++ state ++ "\x22, ")
    ++ "    \x22path\x22 : \x22State\x22, "
    ++ "    \x22op\x22 : \x22replace\x22 "
    ++ "\x7d,  "
    ++ "  \x7b  "
    ++ ("    \x22value\x22 : \x22" ++ zip ++ "\x22, ")
    ++ "    \x22path\x22 : \x22Zip\x22, "
    ++ "    \x22op\x22 : \x22replace\x22 "
    ++ "\x7d,  "
    ++ "  \x7b  "
    ++ ("    \x22value\x22 : \x22" ++ country ++ "\x22, ")
    ++ "    \x22path\x22 : \x22Country\x22, "
    ++ "    \x22op\x22 : \x22replace\x22 "
    ++ "\x7d,  "
    ++ "  \x7b  "
    ++ ("    \x22value\x22 : \x22" ++ timezone ++ "\x22, ")
    ++ "    \x22path\x22 : \x22TimeZone\x22, "
    ++ "    \x22op\x22 : \x22replace\x22 "
    ++ "\x7d,  "
    ++ "  \x7b  "
    ++ ("    \x22value\x22 : \x22" ++ includeInCorrespondence ++ "\x22, ")
    ++ "    \x22path\x22 : \x22IncludeInCorrespondence\x22, "
    ++ "    \x22op\x22 : \x22replace\x22 "
    ++ "\x7d]"

/-- Body string contact_update feeds to json.loads, as a function of the raw
arguments: notes stripped (lines 474-475), language/timezone defaulted
(477-481), no other escaping, then the concatenation of lines 484-569.
updatedOn and updatedBy do not reach the body. -/
def contact_update_body (first_name last_name language timezone notes email officePhone
    cellPhone fax title address1 address2 city state zip country
    includeInCorrespondence : String) : String :=
  update_body_string first_name last_name (defaultLanguage language) (stripNotes notes)
    email officePhone cellPhone fax title address1 address2 city state zip country
    (defaultTimezone timezone) includeInCorrespondence

/-- Decoding contact_response.json(): ok on valid JSON, a raised ValueError
otherwise. -/
def responseJson (r : HttpResult) : Except PyErr JValue :=
  match json_loads r.bodyText with
  | some v => Except.ok v
  | none => Except.error PyErr.jsonDecodeError

/-- requests' Response.raise_for_status: raises HTTPError exactly for
status codes in [400, 600). -/
def raiseForStatus (r : HttpResult) : Except PyErr Unit :=
  if 400 ≤ r.status ∧ r.status < 600 then Except.error PyErr.httpError
  else Except.ok ()

/-- login (source lines 49-57) as a function of the outcome of its one POST
(none models requests.post itself raising): raise_for_status, decode the
body, then subscript ["accessToken"]; every failure propagates. -/
def login (world : Option HttpResult) (email password : String) : Except PyErr JValue :=
  match world with
  | none => Except.error PyErr.requestError
  | some r =>
    match raiseForStatus r with
    | Except.error e => Except.error e
    | Except.ok _ =>
      match responseJson r with
      | Except.error e => Except.error e
      | Except.ok j => pySubscript j "accessToken"

/-- Request built and sent by add_contact_to_account (source lines 252-256):
POST to the contacts endpoint with the parsed body; none when json.loads on
the concatenated body raises, in which case no request is sent.  The full
Python parameter list is taken, including the unused city, state, zip,
country, updatedOn and updatedBy. -/
def add_contact_request (access_token tenant_id account_number first_name last_name
    language timezone notes email officePhone cellPhone fax title address1 address2
    city state zip country updatedOn updatedBy includeInCorrespondence : String) :
    Option HttpRequest :=
  match json_loads (add_contact_body first_name last_name language timezone notes email
      officePhone cellPhone fax title address1 address2 includeInCorrespondence) with
  | none => none
  | some contact_body =>
    some
      { method := "POST"
        uri := "https://arc-aegis.billtrust.com/collections/api/v1/tenants/" ++ tenant_id
          ++ "/collectioncustomers/accountNumber/" ++ account_number ++ "/collectioncontacts"
        headers := [("Accept", "application/json"), ("X-Billtrust-Auth", access_token)]
        body := some contact_body }

/-- add_contact_to_account (source lines 218-283) as a function of the outcome
of its one POST.  Control flow made explicit: if json.loads on the body raises
(line 251), the except handler itself reads the unbound local contact_body at
line 275, so an UnboundLocalError escapes; if requests.post raises (world =
none), the handler completes but line 283 reads the unbound contact_response,
again an UnboundLocalError; otherwise the function always returns
contact_response.json() at line 283 - for a 4xx/5xx status via the except
handler, for other statuses directly - raising a decode error on a non-JSON
body. -/
def add_contact_to_account (world : Option HttpResult) (access_token tenant_id
    account_number first_name last_name language timezone notes email officePhone
    cellPhone fax title address1 address2 city state zip country updatedOn updatedBy
    includeInCorrespondence : String) : Except PyErr JValue :=
  match json_loads (add_contact_body first_name last_name language timezone notes email
      officePhone cellPhone fax title address1 address2 includeInCorrespondence) with
  | none => Except.error PyErr.unboundLocal
  | some _contact_body =>
    match world with
    | none => Except.error PyErr.unboundLocal
    | some r =>
      if 400 ≤ r.status ∧ r.status < 600 then responseJson r
      else responseJson r

/-- Request built and sent by contact_update (source lines 571-577): PATCH to
the per-contact endpoint; none when json.loads on the concatenated body
raises. -/
def contact_update_request (access_token tenant_id account_number contact_id first_name
    last_name language timezone notes email officePhone cellPhone fax title address1
    address2 city state zip country updatedOn updatedBy
    includeInCorrespondence : String) : Option HttpRequest :=
  match json_loads (contact_update_body first_name last_name language timezone notes
      email officePhone cellPhone fax title address1 address2 city state zip country
      includeInCorrespondence) with
  | none => none
  | some update_body =>
    some
      { method := "PATCH"
        uri := "https://arc-aegis.billtrust.com/collections/api/v1/tenants/" ++ tenant_id
          ++ "/collectioncustomers/accountNumber/" ++ account_number
          ++ "/collectioncontacts/" ++ contact_id
        headers := [("Accept", "application/json"), ("X-Billtrust-Auth", access_token)]
        body := some update_body }

/-- contact_update (source lines 469-601) as a function of the outcome of its
one PATCH.  return_value is initialised at line 575, inside the try and after
json.loads (571): if json.loads raises, the except handler's read of
return_value at line 597 is an UnboundLocalError that escapes.  After that
point every failure (requests.patch raising, 4xx/5xx status, undecodable
response body) is caught and the function returns the sentinel '' (modelled
as JValue.str ""); on full success it returns the decoded response. -/
def contact_update (world : Option HttpResult) (access_token tenant_id account_number
    contact_id first_name last_name language timezone notes email officePhone cellPhone
    fax title address1 address2 city state zip country updatedOn updatedBy
    includeInCorrespondence : String) : Except PyErr JValue :=
  match json_loads (contact_update_body first_name last_name language timezone notes
      email officePhone cellPhone fax title address1 address2 city state zip country
      includeInCorrespondence) with
  | none => Except.error PyErr.unboundLocal
  | some _update_body =>
    match world with
    | none => Except.ok (JValue.str "")
    | some r =>
      if 400 ≤ r.status ∧ r.status < 600 then Except.ok (JValue.str "")
      else
        match json_loads r.bodyText with
        | none => Except.ok (JValue.str "")
        | some v => Except.ok v

/-- Loop body of contact_internalid_lookup (source lines 315-317): linear scan
comparing contact['firstName'] and then, only on a first-name match,
contact['lastName']; a raised KeyError/TypeError anywhere aborts the loop and
the except handler returns ''. -/
def scanContacts (firstname lastname : String) : List JValue → JValue
  | [] => JValue.str ""
  | c :: rest =>
    match pySubscript c "firstName" with
    | Except.error _ => JValue.str ""
    | Except.ok v =>
      if jeqStr v firstname then
        match pySubscript c "lastName" with
        | Except.error _ => JValue.str ""
        | Except.ok w =>
          if jeqStr w lastname then
            match pySubscript c "id" with
            | Except.error _ => JValue.str ""
            | Except.ok idv => idv
          else scanContacts firstname lastname rest
      else scanContacts firstname lastname rest

/-- contact_internalid_lookup (source lines 311-322) as a function of the
result of get_contacts_for_account: none models that fetch raising (caught,
logged as a warning, '' returned).  Iterating a decoded value that is not a
list either runs zero iterations or hits a TypeError, both ending in ''. -/
def contact_internalid_lookup (fetch : Option JValue) (firstname lastname : String) :
    JValue :=
  match fetch with
  | none => JValue.str ""
  | some (JValue.arr l) => scanContacts firstname lastname l
  | some _ => JValue.str ""

/-- account_internalid_lookup (source lines 352-370) as a function of the
outcome of its one GET: on any raised error (request, status, decode, or a
missing tenantId / id / custNo key - the reads at lines 360-362, in that
order) the except handler returns ''; otherwise the id value is returned. -/
def account_internalid_lookup (world : Option HttpResult) (access_token tenant_id
    account_number : String) : JValue :=
  match world with
  | none => JValue.str ""
  | some r =>
    if 400 ≤ r.status ∧ r.status < 600 then JValue.str ""
    else
      match json_loads r.bodyText with
      | none => JValue.str ""
      | some j =>
        match pySubscript j "tenantId" with
        | Except.error _ => JValue.str ""
        | Except.ok _this_tenant =>
          match pySubscript j "id" with
          | Except.error _ => JValue.str ""
          | Except.ok this_id =>
            match pySubscript j "custNo" with
            | Except.error _ => JValue.str ""
            | Except.ok _this_customer => this_id

/-- Whitespace-only character list. -/
def wsOk (w : List Char) : Bool := w.all isWsChar

/-- Characters that pass through a JSON string literal untouched: no double
quote, no backslash, no control character.  json.loads on a template whose
interpolated values satisfy this returns exactly the template shape. -/
def strChunkOk (v : List Char) : Bool :=
  v.all fun c => !(c == '\x22') && !(c == '\x5c') && decide (32 ≤ c.toNat)

/-- One object member of a body template: whitespace, a key, whitespace, a
colon, whitespace, a quoted value, trailing whitespace. -/
structure MemT where
  w1 : List Char
  key : List Char
  w2 : List Char
  w3 : List Char
  val : List Char
  w4 : List Char

/-- Characters of one template member. -/
def memChunk (m : MemT) : List Char :=
  m.w1 ++ '\x22' :: (m.key ++ '\x22' :: (m.w2 ++ ':' :: (m.w3 ++ '\x22' ::
    (m.val ++ '\x22' :: m.w4))))

/-- Characters of an object body: members separated by commas, closed by a
brace. -/
def memsChunk : List MemT → List Char
  | [] => []
  | [m] => memChunk m ++ ['\x7d']
  | m :: ms => memChunk m ++ ',' :: memsChunk ms

/-- Well-formedness of a template member: whitespace slots hold whitespace,
key and value are embeddable strings. -/
def memOk (m : MemT) : Bool :=
  wsOk m.w1 && strChunkOk m.key && wsOk m.w2 && wsOk m.w3 && strChunkOk m.val && wsOk m.w4

/-- Python dict built from template members in order. -/
def insertMems (acc : List (String × JValue)) : List MemT → List (String × JValue)
  | [] => acc
  | m :: ms => insertMems (insertKey acc (String.mk m.key) (JValue.str (String.mk m.val))) ms

/-- One array item of the PATCH template: whitespace then a brace-delimited
object of members. -/
structure ItemT where
  w0 : List Char
  mems : List MemT

/-- Characters of one template item. -/
def itemChunk (it : ItemT) : List Char := it.w0 ++ '\x7b' :: memsChunk it.mems

/-- Characters of an array body: items separated by commas, closed by a
bracket. -/
def itemsChunk : List ItemT → List Char
  | [] => []
  | [it] => itemChunk it ++ [']']
  | it :: its => itemChunk it ++ ',' :: itemsChunk its

/-- Well-formedness of a template item. -/
def itemOk (it : ItemT) : Bool :=
  wsOk it.w0 && !(it.mems.isEmpty) && it.mems.all memOk

/-- Parsed value of one template item. -/
def itemVal (it : ItemT) : JValue := JValue.obj (insertMems [] it.mems)

/-- One decoded {value, path, op: replace} operation of the PATCH body. -/
def replaceOp (v p : String) : JValue :=
  JValue.obj [("value", JValue.str v), ("path", JValue.str p), ("op", JValue.str "replace")]

/-- Template members of the add-contact body (the 13 keys and the exact
whitespace of source lines 237-250), with the embedded value characters as
parameters. -/
def addMems (l1 l2 l3 l4 l5 l6 l7 l8 l9 l10 l11 l12 l13 : List Char) : List MemT :=
  [⟨[' '], "firstName".data, [' '], [' '], l1, []⟩,
   ⟨[' ', ' ', ' '], "lastName".data, [' ', ' '], [' '], l2, []⟩,
   ⟨[' ', ' ', ' '], "language".data, [' ', ' '], [' '], l3, []⟩,
   ⟨[' ', ' ', ' '], "notes".data, [' ', ' '], [' '], l4, []⟩,
   ⟨[' ', ' ', ' '], "email".data, [' ', ' '], [' '], l5, []⟩,
   ⟨[' ', ' ', ' '], "officePhone".data, [' ', ' '], [' '], l6, []⟩,
   ⟨[' ', ' ', ' '], "cellPhone".data, [' ', ' '], [' '], l7, []⟩,
   ⟨[' ', ' ', ' '], "fax".data, [' ', ' '], [' '], l8, []⟩,
   ⟨[' ', ' ', ' '], "title".data, [' ', ' '], [' '], l9, []⟩,
   ⟨[' ', ' ', ' '], "address1".data, [' ', ' '], [' '], l10, []⟩,
   ⟨[' ', ' ', ' '], "address2".data, [' ', ' '], [' '], l11, []⟩,
   ⟨[' ', ' ', ' '], "timezone".data, [' ', ' '], [' '], l12, []⟩,
   ⟨[' ', ' ', ' '], "IncludeInCorrespondence".data, [' '], [' '], l13, [' ', ' ']⟩]

/-- Template item with the whitespace pattern shared by PATCH items 5-17. -/
def updateItem1 (w0 wv : List Char) (v p : List Char) (wop : List Char) : ItemT :=
  ⟨w0, [⟨wv, "value".data, [' '], [' '], v, []⟩,
        ⟨[' ', ' ', ' ', ' ', ' '], "path".data, [' '], [' '], p, []⟩,
        ⟨[' ', ' ', ' ', ' ', ' '], "op".data, [' '], [' '], "replace".data, wop⟩]⟩

/-- Template items of the PATCH body (the 17 operations and the exact
whitespace of source lines 484-569). -/
def updateItems (l1 l2 l3 l4 l5 l6 l7 l8 l9 l10 l11 l12 l13 l14 l15 l16 l17 : List Char) :
    List ItemT :=
  [⟨[], [⟨[], "value".data, [' '], [' '], l1, []⟩,
         ⟨[' '], "path".data, [' '], [' '], "FirstName".data, []⟩,
         ⟨[' '], "op".data, [' '], [' '], "replace".data, [' ']⟩]⟩,
   ⟨[' '], [⟨[], "value".data, [' '], [' '], l2, []⟩,
            ⟨[' '], "path".data, [' '], [' '], "LastName".data, []⟩,
            ⟨[' '], "op".data, [' '], [' '], "replace".data, [' ']⟩]⟩,
   ⟨[' '], [⟨[], "value".data, [' '], [' '], l3, []⟩,
            ⟨[' '], "path".data, [' '], [' '], "Language".data, []⟩,
            ⟨[' '], "op".data, [' '], [' '], "replace".data, []⟩]⟩,
   ⟨[' '], [⟨[], "value".data, [' '], [' '], l4, []⟩,
            ⟨[' ', ' ', ' ', ' ', ' '], "path".data, [' '], [' '], "Notes".data, []⟩,
            ⟨[' ', ' ', ' ', ' ', ' '], "op".data, [' '], [' '], "replace".data, [' ', ' ', ' ']⟩]⟩,
   updateItem1 [' ', ' ', ' '] [' ', ' ', ' ', ' ', ' ', ' '] l5 "Email".data [' ', ' ', ' '],
   updateItem1 [' ', ' ', ' '] [' ', ' ', ' ', ' ', ' ', ' '] l6 "OfficePhone".data [' ', ' ', ' '],
   updateItem1 [' ', ' '] [' ', ' ', ' ', ' '] l7 "CellPhone".data [' '],
   updateItem1 [' ', ' ', ' '] [' ', ' ', ' ', ' '] l8 "Fax".data [' '],
   updateItem1 [' ', ' ', ' ', ' '] [' ', ' ', ' ', ' ', ' ', ' '] l9 "Title".data [' '],
   updateItem1 [' ', ' ', ' ', ' '] [' ', ' ', ' ', ' ', ' ', ' '] l10 "Address1".data [' '],
   updateItem1 [' ', ' ', ' ', ' '] [' ', ' ', ' ', ' ', ' ', ' '] l11 "Address2".data [' '],
   updateItem1 [' ', ' ', ' ', ' '] [' ', ' ', ' ', ' ', ' ', ' '] l12 "City".data [' '],
   updateItem1 [' ', ' ', ' ', ' '] [' ', ' ', ' ', ' ', ' ', ' '] l13 "State".data [' '],
   updateItem1 [' ', ' ', ' ', ' '] [' ', ' ', ' ', ' ', ' ', ' '] l14 "Zip".data [' '],
   updateItem1 [' ', ' ', ' ', ' '] [' ', ' ', ' ', ' ', ' ', ' '] l15 "Country".data [' '],
   updateItem1 [' ', ' ', ' ', ' '] [' ', ' ', ' ', ' ', ' ', ' '] l16 "TimeZone".data [' '],
   updateItem1 [' ', ' ', ' ', ' '] [' ', ' ', ' ', ' ', ' ', ' '] l17 "IncludeInCorrespondence".data [' ']]

/-- Whether a parsed body has an entry for a key (false when the body failed
to build or is not an object). -/
def hasEntry (b : Option JValue) (k : String) : Bool :=
  match b with
  | some (JValue.obj l) => (lookupKey l k).isSome
  | _ => false

/-- Value of a field of a parsed object body. -/
def bodyFieldStr (b : Option JValue) (k : String) : Option JValue :=
  match b with
  | some (JValue.obj l) => lookupKey l k
  | _ => none

/-- Number of operations in a parsed array body. -/
def arrLen (b : Option JValue) : Option Nat :=
  match b with
  | some (JValue.arr l) => some l.length
  | _ => none

/-- Whether one parsed operation is a replace operation. -/
def isReplaceOp (j : JValue) : Bool :=
  match j with
  | JValue.obj l =>
    match lookupKey l "op" with
    | some v => jeqStr v "replace"
    | none => false
  | _ => false

/-- Path of one parsed operation. -/
def opPath (j : JValue) : Option String :=
  match j with
  | JValue.obj l =>
    match lookupKey l "path" with
    | some (JValue.str p) => some p
    | _ => none
  | _ => none

/-- Value of the i-th operation of a parsed PATCH body. -/
def opValueAt (b : Option JValue) (i : Nat) : Option JValue :=
  match b with
  | some (JValue.arr l) =>
    match l.get? i with
    | some (JValue.obj m) => lookupKey m "value"
    | _ => none
  | _ => none

/-- The 17 field paths of contact_update, in source order. -/
def updatePaths : List String :=
  ["FirstName", "LastName", "Language", "Notes", "Email", "OfficePhone", "CellPhone", "Fax",
   "Title", "Address1", "Address2", "City", "State", "Zip", "Country", "TimeZone",
   "IncludeInCorrespondence"]

/-- Shape asserted of the PATCH body: a JSON array of exactly 17 operations,
each with op replace, whose paths are updatePaths in order. -/
def patchShape (b : Option JValue) : Bool :=
  match b with
  | some (JValue.arr l) =>
    (l.length == 17) && l.all isReplaceOp && (l.map opPath == updatePaths.map some)
  | _ => false

/-- Modelled from the amended claim for login: a 4xx or 5xx status is an HTTP
error; otherwise the body is decoded (error on non-JSON) and accessToken is
subscripted, a missing key being a key-lookup error. -/
def login_spec (r : HttpResult) : Except PyErr JValue :=
  if 400 ≤ r.status ∧ r.status < 600 then Except.error PyErr.httpError
  else
    match json_loads r.bodyText with
    | none => Except.error PyErr.jsonDecodeError
    | some j => pySubscript j "accessToken"

/-- A well-formed contact record: string firstName, lastName and id fields. -/
structure ContactR where
  firstName : String
  lastName : String
  id : String

/-- Reads a decoded contact as a record when its three fields are present and
are strings (further fields are allowed). -/
def contactOf (j : JValue) : Option ContactR :=
  match j with
  | JValue.obj m =>
    match lookupKey m "firstName", lookupKey m "lastName", lookupKey m "id" with
    | some (JValue.str f), some (JValue.str l), some (JValue.str i) => some ⟨f, l, i⟩
    | _, _, _ => none
  | _ => none

/-- Reads a decoded contact list as records when every element is
well-formed. -/
def contactsOf : List JValue → Option (List ContactR)
  | [] => some []
  | j :: rest =>
    match contactOf j, contactsOf rest with
    | some c, some cs => some (c :: cs)
    | _, _ => none

/-- Modelled from the claim for contact_internalid_lookup: the id of the
first contact in list order whose first and last name match exactly, or the
empty string. -/
def findContactId (cs : List ContactR) (fn ln : String) : String :=
  match cs.find? (fun c => c.firstName == fn && c.lastName == ln) with
  | some c => c.id
  | none => ""

theorem strDataAppend (a b : String) : (a ++ b).data = a.data ++ b.data := rfl

theorem skipWs_append (w s : List Char) (hw : wsOk w = true) : skipWs (w ++ s) = skipWs s := by
  induction w with
  | nil => simp
  | cons c w ih =>
    simp only [wsOk, List.all_cons, Bool.and_eq_true] at hw
    simp only [List.cons_append, skipWs, hw.1, if_true]
    exact ih hw.2

theorem skipWs_cons (c : Char) (s : List Char) (h : isWsChar c = false) :
    skipWs (c :: s) = c :: s := by
  simp [skipWs, h]

theorem parseStrBody_chunk (v rest : List Char) (hv : strChunkOk v = true) :
    parseStrBody (v ++ '\x22' :: rest) = some (v, rest) := by
  induction v with
  | nil =>
    rw [List.nil_append, parseStrBody.eq_def]
    simp
  | cons c v ih =>
    simp only [strChunkOk, List.all_cons, Bool.and_eq_true, bne_iff_ne, ne_eq,
      Bool.not_eq_true', beq_eq_false_iff_ne, decide_eq_true_eq] at hv
    obtain ⟨⟨⟨h1, h2⟩, h3⟩, h4⟩ := hv
    have h32 : ¬ c.toNat < 32 := by omega
    rw [List.cons_append, parseStrBody.eq_def]
    simp only [if_neg h1, if_neg h2, if_neg h32]
    rw [ih h4]

theorem parseValue_strChunk (fuel : Nat) (w v rest : List Char) (hw : wsOk w = true)
    (hv : strChunkOk v = true) :
    parseValue (fuel + 1) (w ++ '\x22' :: (v ++ '\x22' :: rest)) =
      some (JValue.str (String.mk v), rest) := by
  simp only [parseValue]
  rw [skipWs_append _ _ hw, skipWs_cons _ _ (by decide)]
  simp only [if_pos rfl, if_true]
  rw [parseStrBody_chunk _ _ hv]

theorem memsChunk_single_append (m : MemT) (rest : List Char) :
    memsChunk [m] ++ rest =
      m.w1 ++ '\x22' :: (m.key ++ '\x22' :: (m.w2 ++ ':' :: (m.w3 ++ '\x22' ::
        (m.val ++ '\x22' :: (m.w4 ++ '\x7d' :: rest))))) := by
  simp [memsChunk, memChunk]

theorem memsChunk_cons_append (m m2 : MemT) (ms : List MemT) (rest : List Char) :
    memsChunk (m :: m2 :: ms) ++ rest =
      m.w1 ++ '\x22' :: (m.key ++ '\x22' :: (m.w2 ++ ':' :: (m.w3 ++ '\x22' ::
        (m.val ++ '\x22' :: (m.w4 ++ ',' :: (memsChunk (m2 :: ms) ++ rest)))))) := by
  simp [memsChunk, memChunk]

theorem parseMembers_chunk : ∀ (ms : List MemT) (fuel : Nat) (acc : List (String × JValue))
    (rest : List Char), ms ≠ [] → (∀ m ∈ ms, memOk m = true) → ms.length + 1 ≤ fuel →
    parseMembers fuel acc (memsChunk ms ++ rest) = some (insertMems acc ms, rest) := by
  intro ms
  induction ms with
  | nil => intro _ _ _ h; exact absurd rfl h
  | cons m ms ih =>
    intro fuel acc rest _ hok hfuel
    obtain ⟨f, rfl⟩ : ∃ f, fuel = f + 1 := ⟨fuel - 1, by omega⟩
    have hm : memOk m = true := hok m (by simp)
    simp only [memOk, Bool.and_eq_true] at hm
    obtain ⟨⟨⟨⟨⟨hw1, hkey⟩, hw2⟩, hw3⟩, hval⟩, hw4⟩ := hm
    obtain ⟨f2, rfl⟩ : ∃ f2, f = f2 + 1 := ⟨f - 1, by simp at hfuel; omega⟩
    cases ms with
    | nil =>
      rw [memsChunk_single_append]
      simp only [parseMembers]
      rw [skipWs_append _ _ hw1, skipWs_cons _ _ (by decide)]
      simp only []
      rw [parseStrBody_chunk _ _ hkey]
      simp only []
      rw [skipWs_append _ _ hw2, skipWs_cons _ _ (by decide)]
      simp only []
      rw [parseValue_strChunk _ _ _ _ hw3 hval]
      simp only []
      rw [skipWs_append _ _ hw4, skipWs_cons _ _ (by decide)]
      simp [insertMems]
    | cons m2 ms2 =>
      rw [memsChunk_cons_append]
      set g := f2 + 1 with hg
      clear_value g
      simp only [parseMembers]
      rw [skipWs_append _ _ hw1, skipWs_cons _ _ (by decide)]
      simp only []
      rw [parseStrBody_chunk _ _ hkey]
      simp only []
      rw [skipWs_append _ _ hw2, skipWs_cons _ _ (by decide)]
      simp only []
      rw [hg]
      rw [parseValue_strChunk _ _ _ _ hw3 hval]
      simp only []
      rw [skipWs_append _ _ hw4, skipWs_cons _ _ (by decide)]
      simp only []
      rw [ih (f2 + 1) _ rest (by simp) (fun x hx => hok x (by simp [hx]))
        (by rw [hg] at hfuel; simp only [List.length_cons] at hfuel ⊢; omega)]
      simp [insertMems]

theorem parseValue_objChunk (fuel : Nat) (w0 : List Char) (ms : List MemT) (rest : List Char)
    (hw0 : wsOk w0 = true) (hne : ms ≠ []) (hok : ∀ m ∈ ms, memOk m = true)
    (hfuel : ms.length + 2 ≤ fuel) :
    parseValue fuel (w0 ++ '\x7b' :: (memsChunk ms ++ rest)) =
      some (JValue.obj (insertMems [] ms), rest) := by
  obtain ⟨f, rfl⟩ : ∃ f, fuel = f + 1 := ⟨fuel - 1, by omega⟩
  simp only [parseValue]
  rw [skipWs_append _ _ hw0, skipWs_cons _ _ (by decide)]
  simp only [if_neg (show ¬('\x7b' : Char) = '\x22' by decide), if_pos rfl, if_true]
  cases ms with
  | nil => exact absurd rfl hne
  | cons m ms2 =>
    have hw1 : wsOk m.w1 = true := by
      have := hok m (by simp)
      simp only [memOk, Bool.and_eq_true] at this
      exact this.1.1.1.1.1
    cases ms2 with
    | nil =>
      rw [memsChunk_single_append, skipWs_append _ _ hw1, skipWs_cons _ _ (by decide)]
      rw [show m.w1 ++ '\x22' :: (m.key ++ '\x22' :: (m.w2 ++ ':' :: (m.w3 ++ '\x22' ::
            (m.val ++ '\x22' :: (m.w4 ++ '\x7d' :: rest))))) = memsChunk [m] ++ rest from
          (memsChunk_single_append m rest).symm]
      rw [parseMembers_chunk [m] f [] rest (by simp) hok (by simp at hfuel ⊢; omega)]
      rfl
    | cons m2 ms3 =>
      rw [memsChunk_cons_append, skipWs_append _ _ hw1, skipWs_cons _ _ (by decide)]
      rw [show m.w1 ++ '\x22' :: (m.key ++ '\x22' :: (m.w2 ++ ':' :: (m.w3 ++ '\x22' ::
            (m.val ++ '\x22' :: (m.w4 ++ ',' :: (memsChunk (m2 :: ms3) ++ rest)))))) =
          memsChunk (m :: m2 :: ms3) ++ rest from (memsChunk_cons_append m m2 ms3 rest).symm]
      rw [parseMembers_chunk (m :: m2 :: ms3) f [] rest (by simp) hok
        (by simp only [List.length_cons] at hfuel ⊢; omega)]
      rfl

theorem itemsChunk_single_append (it : ItemT) (rest : List Char) :
    itemsChunk [it] ++ rest = it.w0 ++ '\x7b' :: (memsChunk it.mems ++ ']' :: rest) := by
  simp [itemsChunk, itemChunk]

theorem itemsChunk_cons_append (it it2 : ItemT) (its : List ItemT) (rest : List Char) :
    itemsChunk (it :: it2 :: its) ++ rest =
      it.w0 ++ '\x7b' :: (memsChunk it.mems ++ ',' :: (itemsChunk (it2 :: its) ++ rest)) := by
  simp [itemsChunk, itemChunk]

theorem itemOk_parts (it : ItemT) (h : itemOk it = true) :
    wsOk it.w0 = true ∧ it.mems ≠ [] ∧ ∀ m ∈ it.mems, memOk m = true := by
  simp only [itemOk, Bool.and_eq_true, Bool.not_eq_true', List.isEmpty_eq_false_iff_exists_mem,
    List.all_eq_true] at h
  refine ⟨h.1.1, ?_, h.2⟩
  intro hnil
  obtain ⟨x, hx⟩ := h.1.2
  simp [hnil] at hx

theorem parseItems_chunk : ∀ (its : List ItemT) (M fuel : Nat) (acc : List JValue)
    (rest : List Char), its ≠ [] → (∀ it ∈ its, itemOk it = true) →
    (∀ it ∈ its, it.mems.length ≤ M) → its.length + M + 2 ≤ fuel →
    parseItems fuel acc (itemsChunk its ++ rest) = some (acc ++ its.map itemVal, rest) := by
  intro its
  induction its with
  | nil => intro _ _ _ _ h; exact absurd rfl h
  | cons it its2 ih =>
    intro M fuel acc rest _ hok hM hfuel
    obtain ⟨f, rfl⟩ : ∃ f, fuel = f + 1 := ⟨fuel - 1, by omega⟩
    obtain ⟨hw0, hne, hmems⟩ := itemOk_parts it (hok it (by simp))
    have hfit : it.mems.length + 2 ≤ f := by
      have := hM it (by simp)
      simp only [List.length_cons] at hfuel
      omega
    simp only [parseItems]
    cases its2 with
    | nil =>
      rw [itemsChunk_single_append]
      rw [parseValue_objChunk f it.w0 it.mems (']' :: rest) hw0 hne hmems hfit]
      simp only []
      rw [skipWs_cons _ _ (by decide)]
      simp [itemVal]
    | cons it2 its3 =>
      rw [itemsChunk_cons_append]
      rw [parseValue_objChunk f it.w0 it.mems (',' :: (itemsChunk (it2 :: its3) ++ rest)) hw0
        hne hmems hfit]
      simp only []
      rw [skipWs_cons _ _ (by decide)]
      simp only []
      rw [show JValue.obj (insertMems [] it.mems) = itemVal it from rfl]
      rw [ih M f (acc ++ [itemVal it]) rest (by simp)
        (fun x hx => hok x (by simp [hx])) (fun x hx => hM x (by simp [hx]))
        (by simp only [List.length_cons] at hfuel ⊢; omega)]
      simp [itemVal]

theorem parseValue_arrChunk (fuel M : Nat) (its : List ItemT) (rest : List Char)
    (hne : its ≠ []) (hok : ∀ it ∈ its, itemOk it = true)
    (hM : ∀ it ∈ its, it.mems.length ≤ M) (hfuel : its.length + M + 3 ≤ fuel) :
    parseValue fuel ('[' :: (itemsChunk its ++ rest)) =
      some (JValue.arr (its.map itemVal), rest) := by
  obtain ⟨f, rfl⟩ : ∃ f, fuel = f + 1 := ⟨fuel - 1, by omega⟩
  simp only [parseValue]
  rw [skipWs_cons _ _ (by decide)]
  simp only [if_neg (show ¬('[' : Char) = '\x22' by decide),
    if_neg (show ¬('[' : Char) = '\x7b' by decide), if_pos rfl, if_true]
  cases its with
  | nil => exact absurd rfl hne
  | cons it its2 =>
    obtain ⟨hw0, hnem, hmems⟩ := itemOk_parts it (hok it (by simp))
    cases its2 with
    | nil =>
      rw [itemsChunk_single_append, skipWs_append _ _ hw0, skipWs_cons _ _ (by decide)]
      rw [show it.w0 ++ '\x7b' :: (memsChunk it.mems ++ ']' :: rest) = itemsChunk [it] ++ rest
        from (itemsChunk_single_append it rest).symm]
      rw [parseItems_chunk [it] M f [] rest (by simp) hok hM
        (by simp only [List.length_cons] at hfuel ⊢; omega)]
      rfl
    | cons it2 its3 =>
      rw [itemsChunk_cons_append, skipWs_append _ _ hw0, skipWs_cons _ _ (by decide)]
      rw [show it.w0 ++ '\x7b' :: (memsChunk it.mems ++ ',' :: (itemsChunk (it2 :: its3) ++ rest)) =
        itemsChunk (it :: it2 :: its3) ++ rest from (itemsChunk_cons_append it it2 its3 rest).symm]
      rw [parseItems_chunk (it :: it2 :: its3) M f [] rest (by simp) hok hM
        (by simp only [List.length_cons] at hfuel ⊢; omega)]
      rfl

theorem memsChunk_length : ∀ ms : List MemT, ms.length ≤ (memsChunk ms).length := by
  intro ms
  induction ms with
  | nil => simp [memsChunk]
  | cons m ms ih =>
    cases ms with
    | nil => simp [memsChunk]
    | cons m2 ms2 =>
      rw [show memsChunk (m :: m2 :: ms2) = memChunk m ++ ',' :: memsChunk (m2 :: ms2) from rfl]
      simp only [List.length_append, List.length_cons] at ih ⊢
      omega

theorem itemsChunk_length : ∀ (its : List ItemT) (M : Nat), its ≠ [] →
    (∀ it ∈ its, M ≤ (memsChunk it.mems).length) →
    its.length + M + 1 ≤ (itemsChunk its).length := by
  intro its
  induction its with
  | nil => intro M h; exact absurd rfl h
  | cons it its2 ih =>
    intro M _ hM
    cases its2 with
    | nil =>
      have := hM it (by simp)
      simp only [itemsChunk, itemChunk, List.length_append, List.length_cons, List.length_nil]
      omega
    | cons it2 its3 =>
      have h1 := hM it (by simp)
      have h2 := ih M (by simp) (fun x hx => hM x (by simp [hx]))
      rw [show itemsChunk (it :: it2 :: its3) = itemChunk it ++ ',' :: itemsChunk (it2 :: its3)
        from rfl]
      simp only [itemChunk, List.length_append, List.length_cons] at h2 ⊢
      omega

theorem memOk_mk (w1 k w2 w3 v w4 : List Char) (hw1 : wsOk w1 = true)
    (hk : strChunkOk k = true) (hw2 : wsOk w2 = true) (hw3 : wsOk w3 = true)
    (hv : strChunkOk v = true) (hw4 : wsOk w4 = true) :
    memOk ⟨w1, k, w2, w3, v, w4⟩ = true := by
  simp [memOk, hw1, hk, hw2, hw3, hv, hw4]

theorem itemOk_mk3 (w0 : List Char) (m1 m2 m3 : MemT) (hw0 : wsOk w0 = true)
    (h1 : memOk m1 = true) (h2 : memOk m2 = true) (h3 : memOk m3 = true) :
    itemOk ⟨w0, [m1, m2, m3]⟩ = true := by
  simp [itemOk, hw0, h1, h2, h3]

set_option maxHeartbeats 4000000 in
theorem contact_body_string_data (v1 v2 v3 v4 v5 v6 v7 v8 v9 v10 v11 v12 v13 : String) :
    (contact_body_string v1 v2 v3 v4 v5 v6 v7 v8 v9 v10 v11 v12 v13).data =
    '\x7b' :: (memsChunk (addMems v1.data v2.data v3.data v4.data v5.data v6.data v7.data
      v8.data v9.data v10.data v11.data v12.data v13.data) ++ []) := by
  simp only [contact_body_string, strDataAppend, addMems, memsChunk, memChunk,
    List.append_assoc, List.cons_append, List.nil_append, List.append_nil]

set_option maxHeartbeats 12000000 in
theorem update_body_string_data (v1 v2 v3 v4 v5 v6 v7 v8 v9 v10 v11 v12 v13 v14 v15 v16 v17 : String) :
    (update_body_string v1 v2 v3 v4 v5 v6 v7 v8 v9 v10 v11 v12 v13 v14 v15 v16 v17).data =
    '[' :: (itemsChunk (updateItems v1.data v2.data v3.data v4.data v5.data v6.data v7.data
      v8.data v9.data v10.data v11.data v12.data v13.data v14.data v15.data v16.data v17.data)
      ++ []) := by
  simp only [update_body_string, strDataAppend]
  simp only [updateItems, updateItem1, itemsChunk, itemChunk, memsChunk, memChunk]
  simp only [List.cons_append, List.nil_append, List.append_nil]
  simp only [List.append_assoc]
  simp only [List.cons_append, List.nil_append, List.append_nil]
  simp only [List.append_assoc]
  simp only [List.cons_append, List.nil_append, List.append_nil]

set_option maxHeartbeats 4000000 in
theorem contact_body_loads (v1 v2 v3 v4 v5 v6 v7 v8 v9 v10 v11 v12 v13 : String)
    (h1 : strChunkOk v1.data = true) (h2 : strChunkOk v2.data = true)
    (h3 : strChunkOk v3.data = true) (h4 : strChunkOk v4.data = true)
    (h5 : strChunkOk v5.data = true) (h6 : strChunkOk v6.data = true)
    (h7 : strChunkOk v7.data = true) (h8 : strChunkOk v8.data = true)
    (h9 : strChunkOk v9.data = true) (h10 : strChunkOk v10.data = true)
    (h11 : strChunkOk v11.data = true) (h12 : strChunkOk v12.data = true)
    (h13 : strChunkOk v13.data = true) :
    json_loads (contact_body_string v1 v2 v3 v4 v5 v6 v7 v8 v9 v10 v11 v12 v13) =
      some (JValue.obj [("firstName", JValue.str v1), ("lastName", JValue.str v2),
        ("language", JValue.str v3), ("notes", JValue.str v4), ("email", JValue.str v5),
        ("officePhone", JValue.str v6), ("cellPhone", JValue.str v7), ("fax", JValue.str v8),
        ("title", JValue.str v9), ("address1", JValue.str v10), ("address2", JValue.str v11),
        ("timezone", JValue.str v12), ("IncludeInCorrespondence", JValue.str v13)]) := by
  have hok : ∀ m ∈ addMems v1.data v2.data v3.data v4.data v5.data v6.data v7.data v8.data
      v9.data v10.data v11.data v12.data v13.data, memOk m = true := by
    intro m hm
    simp only [addMems] at hm
    fin_cases hm
    · exact memOk_mk _ _ _ _ _ _ (by decide) (by decide) (by decide) (by decide) h1 (by decide)
    · exact memOk_mk _ _ _ _ _ _ (by decide) (by decide) (by decide) (by decide) h2 (by decide)
    · exact memOk_mk _ _ _ _ _ _ (by decide) (by decide) (by decide) (by decide) h3 (by decide)
    · exact memOk_mk _ _ _ _ _ _ (by decide) (by decide) (by decide) (by decide) h4 (by decide)
    · exact memOk_mk _ _ _ _ _ _ (by decide) (by decide) (by decide) (by decide) h5 (by decide)
    · exact memOk_mk _ _ _ _ _ _ (by decide) (by decide) (by decide) (by decide) h6 (by decide)
    · exact memOk_mk _ _ _ _ _ _ (by decide) (by decide) (by decide) (by decide) h7 (by decide)
    · exact memOk_mk _ _ _ _ _ _ (by decide) (by decide) (by decide) (by decide) h8 (by decide)
    · exact memOk_mk _ _ _ _ _ _ (by decide) (by decide) (by decide) (by decide) h9 (by decide)
    · exact memOk_mk _ _ _ _ _ _ (by decide) (by decide) (by decide) (by decide) h10 (by decide)
    · exact memOk_mk _ _ _ _ _ _ (by decide) (by decide) (by decide) (by decide) h11 (by decide)
    · exact memOk_mk _ _ _ _ _ _ (by decide) (by decide) (by decide) (by decide) h12 (by decide)
    · exact memOk_mk _ _ _ _ _ _ (by decide) (by decide) (by decide) (by decide) h13 (by decide)
  unfold json_loads
  rw [contact_body_string_data]
  have hlist := memsChunk_length (addMems v1.data v2.data v3.data v4.data v5.data v6.data
    v7.data v8.data v9.data v10.data v11.data v12.data v13.data)
  have hlen13 : (addMems v1.data v2.data v3.data v4.data v5.data v6.data v7.data v8.data
      v9.data v10.data v11.data v12.data v13.data).length = 13 := by
    simp [addMems]
  have hobj := parseValue_objChunk (('\x7b' :: (memsChunk (addMems v1.data v2.data v3.data
      v4.data v5.data v6.data v7.data v8.data v9.data v10.data v11.data v12.data v13.data) ++
      ([] : List Char))).length + 1) []
    (addMems v1.data v2.data v3.data v4.data v5.data v6.data v7.data v8.data v9.data v10.data
      v11.data v12.data v13.data) [] rfl (by simp [addMems]) hok
    (by
      simp only [List.length_cons, List.length_append, List.length_nil]
      omega)
  rw [List.nil_append] at hobj
  rw [hobj]
  rfl

set_option maxHeartbeats 12000000 in
theorem update_body_loads (v1 v2 v3 v4 v5 v6 v7 v8 v9 v10 v11 v12 v13 v14 v15 v16 v17 : String)
    (h1 : strChunkOk v1.data = true) (h2 : strChunkOk v2.data = true)
    (h3 : strChunkOk v3.data = true) (h4 : strChunkOk v4.data = true)
    (h5 : strChunkOk v5.data = true) (h6 : strChunkOk v6.data = true)
    (h7 : strChunkOk v7.data = true) (h8 : strChunkOk v8.data = true)
    (h9 : strChunkOk v9.data = true) (h10 : strChunkOk v10.data = true)
    (h11 : strChunkOk v11.data = true) (h12 : strChunkOk v12.data = true)
    (h13 : strChunkOk v13.data = true) (h14 : strChunkOk v14.data = true)
    (h15 : strChunkOk v15.data = true) (h16 : strChunkOk v16.data = true)
    (h17 : strChunkOk v17.data = true) :
    json_loads (update_body_string v1 v2 v3 v4 v5 v6 v7 v8 v9 v10 v11 v12 v13 v14 v15 v16 v17) =
    some (JValue.arr [replaceOp v1 "FirstName", replaceOp v2 "LastName", replaceOp v3 "Language",
      replaceOp v4 "Notes", replaceOp v5 "Email", replaceOp v6 "OfficePhone",
      replaceOp v7 "CellPhone", replaceOp v8 "Fax", replaceOp v9 "Title",
      replaceOp v10 "Address1", replaceOp v11 "Address2", replaceOp v12 "City",
      replaceOp v13 "State", replaceOp v14 "Zip", replaceOp v15 "Country",
      replaceOp v16 "TimeZone", replaceOp v17 "IncludeInCorrespondence"]) := by
  have hok : ∀ it ∈ updateItems v1.data v2.data v3.data v4.data v5.data v6.data v7.data
      v8.data v9.data v10.data v11.data v12.data v13.data v14.data v15.data v16.data v17.data,
      itemOk it = true := by
    intro it hit
    simp only [updateItems, updateItem1] at hit
    fin_cases hit
    · exact itemOk_mk3 _ _ _ _ (by decide)
        (memOk_mk _ _ _ _ _ _ (by decide) (by decide) (by decide) (by decide) h1 (by decide))
        (by decide) (by decide)
    · exact itemOk_mk3 _ _ _ _ (by decide)
        (memOk_mk _ _ _ _ _ _ (by decide) (by decide) (by decide) (by decide) h2 (by decide))
        (by decide) (by decide)
    · exact itemOk_mk3 _ _ _ _ (by decide)
        (memOk_mk _ _ _ _ _ _ (by decide) (by decide) (by decide) (by decide) h3 (by decide))
        (by decide) (by decide)
    · exact itemOk_mk3 _ _ _ _ (by decide)
        (memOk_mk _ _ _ _ _ _ (by decide) (by decide) (by decide) (by decide) h4 (by decide))
        (by decide) (by decide)
    · exact itemOk_mk3 _ _ _ _ (by decide)
        (memOk_mk _ _ _ _ _ _ (by decide) (by decide) (by decide) (by decide) h5 (by decide))
        (by decide) (by decide)
    · exact itemOk_mk3 _ _ _ _ (by decide)
        (memOk_mk _ _ _ _ _ _ (by decide) (by decide) (by decide) (by decide) h6 (by decide))
        (by decide) (by decide)
    · exact itemOk_mk3 _ _ _ _ (by decide)
        (memOk_mk _ _ _ _ _ _ (by decide) (by decide) (by decide) (by decide) h7 (by decide))
        (by decide) (by decide)
    · exact itemOk_mk3 _ _ _ _ (by decide)
        (memOk_mk _ _ _ _ _ _ (by decide) (by decide) (by decide) (by decide) h8 (by decide))
        (by decide) (by decide)
    · exact itemOk_mk3 _ _ _ _ (by decide)
        (memOk_mk _ _ _ _ _ _ (by decide) (by decide) (by decide) (by decide) h9 (by decide))
        (by decide) (by decide)
    · exact itemOk_mk3 _ _ _ _ (by decide)
        (memOk_mk _ _ _ _ _ _ (by decide) (by decide) (by decide) (by decide) h10 (by decide))
        (by decide) (by decide)
    · exact itemOk_mk3 _ _ _ _ (by decide)
        (memOk_mk _ _ _ _ _ _ (by decide) (by decide) (by decide) (by decide) h11 (by decide))
        (by decide) (by decide)
    · exact itemOk_mk3 _ _ _ _ (by decide)
        (memOk_mk _ _ _ _ _ _ (by decide) (by decide) (by decide) (by decide) h12 (by decide))
        (by decide) (by decide)
    · exact itemOk_mk3 _ _ _ _ (by decide)
        (memOk_mk _ _ _ _ _ _ (by decide) (by decide) (by decide) (by decide) h13 (by decide))
        (by decide) (by decide)
    · exact itemOk_mk3 _ _ _ _ (by decide)
        (memOk_mk _ _ _ _ _ _ (by decide) (by decide) (by decide) (by decide) h14 (by decide))
        (by decide) (by decide)
    · exact itemOk_mk3 _ _ _ _ (by decide)
        (memOk_mk _ _ _ _ _ _ (by decide) (by decide) (by decide) (by decide) h15 (by decide))
        (by decide) (by decide)
    · exact itemOk_mk3 _ _ _ _ (by decide)
        (memOk_mk _ _ _ _ _ _ (by decide) (by decide) (by decide) (by decide) h16 (by decide))
        (by decide) (by decide)
    · exact itemOk_mk3 _ _ _ _ (by decide)
        (memOk_mk _ _ _ _ _ _ (by decide) (by decide) (by decide) (by decide) h17 (by decide))
        (by decide) (by decide)
  have hM : ∀ it ∈ updateItems v1.data v2.data v3.data v4.data v5.data v6.data v7.data
      v8.data v9.data v10.data v11.data v12.data v13.data v14.data v15.data v16.data v17.data,
      it.mems.length ≤ 3 := by
    intro it hit
    simp only [updateItems, updateItem1] at hit
    fin_cases hit <;> exact Nat.le.refl
  have hmem3 : ∀ it ∈ updateItems v1.data v2.data v3.data v4.data v5.data v6.data v7.data
      v8.data v9.data v10.data v11.data v12.data v13.data v14.data v15.data v16.data v17.data,
      3 ≤ (memsChunk it.mems).length := by
    intro it hit
    have h := memsChunk_length it.mems
    have h3 : it.mems.length = 3 := by
      simp only [updateItems, updateItem1] at hit
      fin_cases hit <;> rfl
    omega
  unfold json_loads
  rw [update_body_string_data]
  have hlen := itemsChunk_length (updateItems v1.data v2.data v3.data v4.data v5.data v6.data
    v7.data v8.data v9.data v10.data v11.data v12.data v13.data v14.data v15.data v16.data
    v17.data) 3 (by simp [updateItems]) hmem3
  have harr := parseValue_arrChunk (('[' :: (itemsChunk (updateItems v1.data v2.data v3.data
      v4.data v5.data v6.data v7.data v8.data v9.data v10.data v11.data v12.data v13.data
      v14.data v15.data v16.data v17.data) ++ ([] : List Char))).length + 1) 3
    (updateItems v1.data v2.data v3.data v4.data v5.data v6.data v7.data v8.data v9.data
      v10.data v11.data v12.data v13.data v14.data v15.data v16.data v17.data) []
    (by simp [updateItems]) hok hM
    (by
      simp only [updateItems, updateItem1, List.length_cons, List.length_nil] at hlen ⊢
      simp only [List.length_cons, List.length_nil, List.length_append] at hlen ⊢
      omega)
  rw [harr]
  rfl

theorem foldr_escBackslash_id : ∀ l : List Char, strChunkOk l = true →
    l.foldr (fun c acc => if c = '\x5c' then '\x5c' :: '\x5c' :: acc else c :: acc) [] = l := by
  intro l hl
  induction l with
  | nil => rfl
  | cons c l ih =>
    simp only [strChunkOk, List.all_cons, Bool.and_eq_true, bne_iff_ne, ne_eq,
      Bool.not_eq_true', beq_eq_false_iff_ne, decide_eq_true_eq] at hl
    simp only [List.foldr_cons, if_neg hl.1.1.2]
    rw [ih]
    simp only [strChunkOk]
    exact hl.2

theorem escBackslash_id (s : String) (h : strChunkOk s.data = true) : escBackslash s = s := by
  unfold escBackslash
  rw [foldr_escBackslash_id s.data h]

theorem strChunkOk_filter (p : Char → Bool) (s : List Char) (h : strChunkOk s = true) :
    strChunkOk (s.filter p) = true := by
  simp only [strChunkOk, List.all_eq_true] at h ⊢
  intro c hc
  exact h c (List.mem_of_mem_filter hc)

theorem stripNotes_ok (notes : String) (h : strChunkOk notes.data = true) :
    strChunkOk (stripNotes notes).data = true :=
  strChunkOk_filter _ _ (strChunkOk_filter _ _ h)

theorem defaultLanguage_ok (l : String) (h : strChunkOk l.data = true) :
    strChunkOk (defaultLanguage l).data = true := by
  unfold defaultLanguage
  split
  · decide
  · exact h

theorem defaultTimezone_ok (t : String) (h : strChunkOk t.data = true) :
    strChunkOk (defaultTimezone t).data = true := by
  unfold defaultTimezone
  split
  · decide
  · exact h

theorem add_contact_body_loads (first_name last_name language timezone notes email officePhone
    cellPhone fax title address1 address2 includeInCorrespondence : String)
    (hfn : strChunkOk first_name.data = true) (hln : strChunkOk last_name.data = true)
    (hlang : strChunkOk language.data = true) (htz : strChunkOk timezone.data = true)
    (hnotes : strChunkOk notes.data = true) (hem : strChunkOk email.data = true)
    (hop : strChunkOk officePhone.data = true) (hcp : strChunkOk cellPhone.data = true)
    (hfx : strChunkOk fax.data = true) (htl : strChunkOk title.data = true)
    (ha1 : strChunkOk address1.data = true) (ha2 : strChunkOk address2.data = true)
    (hic : strChunkOk includeInCorrespondence.data = true) :
    json_loads (add_contact_body first_name last_name language timezone notes email officePhone
      cellPhone fax title address1 address2 includeInCorrespondence) =
      some (JValue.obj [("firstName", JValue.str first_name), ("lastName", JValue.str last_name),
        ("language", JValue.str (defaultLanguage language)),
        ("notes", JValue.str (stripNotes notes)), ("email", JValue.str email),
        ("officePhone", JValue.str officePhone), ("cellPhone", JValue.str cellPhone),
        ("fax", JValue.str fax), ("title", JValue.str title),
        ("address1", JValue.str address1), ("address2", JValue.str address2),
        ("timezone", JValue.str (defaultTimezone timezone)),
        ("IncludeInCorrespondence", JValue.str includeInCorrespondence)]) := by
  unfold add_contact_body
  rw [escBackslash_id first_name hfn, escBackslash_id last_name hln]
  exact contact_body_loads first_name last_name (defaultLanguage language) (stripNotes notes)
    email officePhone cellPhone fax title address1 address2 (defaultTimezone timezone)
    includeInCorrespondence hfn hln (defaultLanguage_ok language hlang)
    (stripNotes_ok notes hnotes) hem hop hcp hfx htl ha1 ha2
    (defaultTimezone_ok timezone htz) hic

theorem contact_update_body_loads (first_name last_name language timezone notes email
    officePhone cellPhone fax title address1 address2 city state zip country
    includeInCorrespondence : String)
    (hfn : strChunkOk first_name.data = true) (hln : strChunkOk last_name.data = true)
    (hlang : strChunkOk language.data = true) (htz : strChunkOk timezone.data = true)
    (hnotes : strChunkOk notes.data = true) (hem : strChunkOk email.data = true)
    (hop : strChunkOk officePhone.data = true) (hcp : strChunkOk cellPhone.data = true)
    (hfx : strChunkOk fax.data = true) (htl : strChunkOk title.data = true)
    (ha1 : strChunkOk address1.data = true) (ha2 : strChunkOk address2.data = true)
    (hci : strChunkOk city.data = true) (hst : strChunkOk state.data = true)
    (hzp : strChunkOk zip.data = true) (hco : strChunkOk country.data = true)
    (hic : strChunkOk includeInCorrespondence.data = true) :
    json_loads (contact_update_body first_name last_name language timezone notes email
      officePhone cellPhone fax title address1 address2 city state zip country
      includeInCorrespondence) =
      some (JValue.arr [replaceOp first_name "FirstName", replaceOp last_name "LastName",
        replaceOp (defaultLanguage language) "Language",
        replaceOp (stripNotes notes) "Notes", replaceOp email "Email",
        replaceOp officePhone "OfficePhone", replaceOp cellPhone "CellPhone",
        replaceOp fax "Fax", replaceOp title "Title", replaceOp address1 "Address1",
        replaceOp address2 "Address2", replaceOp city "City", replaceOp state "State",
        replaceOp zip "Zip", replaceOp country "Country",
        replaceOp (defaultTimezone timezone) "TimeZone",
        replaceOp includeInCorrespondence "IncludeInCorrespondence"]) := by
  unfold contact_update_body
  exact update_body_loads first_name last_name (defaultLanguage language) (stripNotes notes)
    email officePhone cellPhone fax title address1 address2 city state zip country
    (defaultTimezone timezone) includeInCorrespondence hfn hln
    (defaultLanguage_ok language hlang) (stripNotes_ok notes hnotes) hem hop hcp hfx htl
    ha1 ha2 hci hst hzp hco (defaultTimezone_ok timezone htz) hic

/-- C1, counterexample to the claim as stated: at a benign input the body
built by add_contact_to_account parses (it has a firstName entry) but has no
country entry, although the claim asserts an entry for country. -/
theorem C1_counterexample :
    hasEntry (json_loads (add_contact_body "John" "Doe" "en" "America/New_York" "note"
      "j@x.com" "555-0100" "555-0101" "555-0102" "Dr" "1 Main St" "Suite 5" "true"))
      "firstName" = true ∧
    hasEntry (json_loads (add_contact_body "John" "Doe" "en" "America/New_York" "note"
      "j@x.com" "555-0100" "555-0101" "555-0102" "Dr" "1 Main St" "Suite 5" "true"))
      "country" = false :=
  ⟨rfl, rfl⟩

/-- C1, amended: for field values free of double quotes, backslashes and
control characters, the JSON request body built by add_contact_to_account
contains exactly an entry for each of first name, last name, language,
timezone, notes, email, both phones, fax, title, both address lines and the
include-in-correspondence flag - and no entry for country (nor city, state
or zip), which never reach the body. -/
theorem C1_no_country (first_name last_name language timezone notes email officePhone
    cellPhone fax title address1 address2 includeInCorrespondence : String)
    (hfn : strChunkOk first_name.data = true) (hln : strChunkOk last_name.data = true)
    (hlang : strChunkOk language.data = true) (htz : strChunkOk timezone.data = true)
    (hnotes : strChunkOk notes.data = true) (hem : strChunkOk email.data = true)
    (hop : strChunkOk officePhone.data = true) (hcp : strChunkOk cellPhone.data = true)
    (hfx : strChunkOk fax.data = true) (htl : strChunkOk title.data = true)
    (ha1 : strChunkOk address1.data = true) (ha2 : strChunkOk address2.data = true)
    (hic : strChunkOk includeInCorrespondence.data = true) :
    json_loads (add_contact_body first_name last_name language timezone notes email officePhone
      cellPhone fax title address1 address2 includeInCorrespondence) =
      some (JValue.obj [("firstName", JValue.str first_name), ("lastName", JValue.str last_name),
        ("language", JValue.str (defaultLanguage language)),
        ("notes", JValue.str (stripNotes notes)), ("email", JValue.str email),
        ("officePhone", JValue.str officePhone), ("cellPhone", JValue.str cellPhone),
        ("fax", JValue.str fax), ("title", JValue.str title),
        ("address1", JValue.str address1), ("address2", JValue.str address2),
        ("timezone", JValue.str (defaultTimezone timezone)),
        ("IncludeInCorrespondence", JValue.str includeInCorrespondence)]) ∧
    hasEntry (json_loads (add_contact_body first_name last_name language timezone notes email
      officePhone cellPhone fax title address1 address2 includeInCorrespondence))
      "country" = false := by
  have hmain := add_contact_body_loads first_name last_name language timezone notes email
    officePhone cellPhone fax title address1 address2 includeInCorrespondence hfn hln hlang
    htz hnotes hem hop hcp hfx htl ha1 ha2 hic
  refine ⟨hmain, ?_⟩
  rw [hmain]
  rfl

/-- C1 witness: the amended theorem applied at a concrete input. -/
theorem C1_no_country_witness :
    strChunkOk "Ann".data = true ∧
    (json_loads (add_contact_body "Ann" "Lee" "" "CST" "n1" "a@b.co" "100" "101" "102" "Mgr"
      "1 Main" "Apt 2" "true") =
      some (JValue.obj [("firstName", JValue.str "Ann"), ("lastName", JValue.str "Lee"),
        ("language", JValue.str "en"), ("notes", JValue.str "n1"),
        ("email", JValue.str "a@b.co"), ("officePhone", JValue.str "100"),
        ("cellPhone", JValue.str "101"), ("fax", JValue.str "102"),
        ("title", JValue.str "Mgr"), ("address1", JValue.str "1 Main"),
        ("address2", JValue.str "Apt 2"), ("timezone", JValue.str "America/Chicago"),
        ("IncludeInCorrespondence", JValue.str "true")]) ∧
    hasEntry (json_loads (add_contact_body "Ann" "Lee" "" "CST" "n1" "a@b.co" "100" "101" "102"
      "Mgr" "1 Main" "Apt 2" "true")) "country" = false) :=
  ⟨by decide, C1_no_country "Ann" "Lee" "" "CST" "n1" "a@b.co" "100" "101" "102" "Mgr"
    "1 Main" "Apt 2" "true" (by decide) (by decide) (by decide) (by decide) (by decide)
    (by decide) (by decide) (by decide) (by decide) (by decide) (by decide) (by decide)
    (by decide)⟩

/-- C2, counterexample to the claim as stated: contact_update applies no
escaping, so a first name containing quotes and braces closes the first
operation object early; json.loads succeeds (the body is built) but the
parsed PATCH body has 18 operations, one of them with op remove. -/
theorem C2_counterexample :
    arrLen (json_loads (contact_update_body
      "A\x22, \x22op\x22 : \x22remove\x22\x7d, \x7b\x22value\x22 : \x22B" "Lee" "en"
      "America/New_York" "" "" "" "" "" "" "" "" "" "" "" "" "")) = some 18 ∧
    patchShape (json_loads (contact_update_body
      "A\x22, \x22op\x22 : \x22remove\x22\x7d, \x7b\x22value\x22 : \x22B" "Lee" "en"
      "America/New_York" "" "" "" "" "" "" "" "" "" "" "" "" "")) = false :=
  ⟨rfl, rfl⟩

/-- C2, amended: for field values free of double quotes, backslashes and
control characters, the PATCH body built by contact_update is a JSON array of
exactly 17 operation objects, each with op replace, covering FirstName,
LastName, Language, Notes, Email, OfficePhone, CellPhone, Fax, Title,
Address1, Address2, City, State, Zip, Country, TimeZone,
IncludeInCorrespondence in that order, independent of which field values
differ from the stored contact. -/
theorem C2_patch_shape (first_name last_name language timezone notes email officePhone
    cellPhone fax title address1 address2 city state zip country
    includeInCorrespondence : String)
    (hfn : strChunkOk first_name.data = true) (hln : strChunkOk last_name.data = true)
    (hlang : strChunkOk language.data = true) (htz : strChunkOk timezone.data = true)
    (hnotes : strChunkOk notes.data = true) (hem : strChunkOk email.data = true)
    (hop : strChunkOk officePhone.data = true) (hcp : strChunkOk cellPhone.data = true)
    (hfx : strChunkOk fax.data = true) (htl : strChunkOk title.data = true)
    (ha1 : strChunkOk address1.data = true) (ha2 : strChunkOk address2.data = true)
    (hci : strChunkOk city.data = true) (hst : strChunkOk state.data = true)
    (hzp : strChunkOk zip.data = true) (hco : strChunkOk country.data = true)
    (hic : strChunkOk includeInCorrespondence.data = true) :
    json_loads (contact_update_body first_name last_name language timezone notes email
      officePhone cellPhone fax title address1 address2 city state zip country
      includeInCorrespondence) =
      some (JValue.arr [replaceOp first_name "FirstName", replaceOp last_name "LastName",
        replaceOp (defaultLanguage language) "Language",
        replaceOp (stripNotes notes) "Notes", replaceOp email "Email",
        replaceOp officePhone "OfficePhone", replaceOp cellPhone "CellPhone",
        replaceOp fax "Fax", replaceOp title "Title", replaceOp address1 "Address1",
        replaceOp address2 "Address2", replaceOp city "City", replaceOp state "State",
        replaceOp zip "Zip", replaceOp country "Country",
        replaceOp (defaultTimezone timezone) "TimeZone",
        replaceOp includeInCorrespondence "IncludeInCorrespondence"]) ∧
    patchShape (json_loads (contact_update_body first_name last_name language timezone notes
      email officePhone cellPhone fax title address1 address2 city state zip country
      includeInCorrespondence)) = true := by
  have hmain := contact_update_body_loads first_name last_name language timezone notes email
    officePhone cellPhone fax title address1 address2 city state zip country
    includeInCorrespondence hfn hln hlang htz hnotes hem hop hcp hfx htl ha1 ha2 hci hst
    hzp hco hic
  refine ⟨hmain, ?_⟩
  rw [hmain]
  rfl

/-- C2 witness: the amended theorem applied at a concrete input. -/
theorem C2_patch_shape_witness :
    strChunkOk "Ann".data = true ∧
    patchShape (json_loads (contact_update_body "Ann" "Lee" "fr" "Europe/Paris" "n1" "a@b.co"
      "100" "101" "102" "Mgr" "1 Main" "Apt 2" "Springfield" "IL" "62704" "US" "true"))
      = true :=
  ⟨by decide, (C2_patch_shape "Ann" "Lee" "fr" "Europe/Paris" "n1" "a@b.co" "100" "101" "102"
    "Mgr" "1 Main" "Apt 2" "Springfield" "IL" "62704" "US" "true" (by decide) (by decide)
    (by decide) (by decide) (by decide) (by decide) (by decide) (by decide) (by decide)
    (by decide) (by decide) (by decide) (by decide) (by decide) (by decide) (by decide)
    (by decide)).2⟩

/-- C3, counterexample to the claim as stated: a language argument of length
at least 2 that contains quote characters is embedded unescaped, so the body
parses but its language value is "x", not the caller's value - the
"otherwise the caller's value" half of the claim fails without a
sanitization proviso. -/
theorem C3_counterexample :
    2 ≤ ("x\x22, \x22q\x22 : \x22y" : String).length ∧
    bodyFieldStr (json_loads (add_contact_body "J" "D" "x\x22, \x22q\x22 : \x22y"
      "America/New_York" "" "" "" "" "" "" "" "" "")) "language" = some (JValue.str "x") ∧
    ¬(("x" : String) = "x\x22, \x22q\x22 : \x22y") :=
  ⟨by decide, rfl, by decide⟩

/-- C3, amended: for field values free of double quotes, backslashes and
control characters, the body's language value is "en" when the language
argument has fewer than 2 characters and the caller's value otherwise, and
the body's timezone value is "America/Chicago" when the timezone argument has
fewer than 4 characters and the caller's value otherwise - in
add_contact_to_account and identically (paths Language and TimeZone) in
contact_update. -/
theorem C3_defaulting (first_name last_name language timezone notes email officePhone
    cellPhone fax title address1 address2 city state zip country
    includeInCorrespondence : String)
    (hfn : strChunkOk first_name.data = true) (hln : strChunkOk last_name.data = true)
    (hlang : strChunkOk language.data = true) (htz : strChunkOk timezone.data = true)
    (hnotes : strChunkOk notes.data = true) (hem : strChunkOk email.data = true)
    (hop : strChunkOk officePhone.data = true) (hcp : strChunkOk cellPhone.data = true)
    (hfx : strChunkOk fax.data = true) (htl : strChunkOk title.data = true)
    (ha1 : strChunkOk address1.data = true) (ha2 : strChunkOk address2.data = true)
    (hci : strChunkOk city.data = true) (hst : strChunkOk state.data = true)
    (hzp : strChunkOk zip.data = true) (hco : strChunkOk country.data = true)
    (hic : strChunkOk includeInCorrespondence.data = true) :
    bodyFieldStr (json_loads (add_contact_body first_name last_name language timezone notes
      email officePhone cellPhone fax title address1 address2 includeInCorrespondence))
      "language" = some (JValue.str (if language.length < 2 then "en" else language)) ∧
    bodyFieldStr (json_loads (add_contact_body first_name last_name language timezone notes
      email officePhone cellPhone fax title address1 address2 includeInCorrespondence))
      "timezone" =
      some (JValue.str (if timezone.length < 4 then "America/Chicago" else timezone)) ∧
    opValueAt (json_loads (contact_update_body first_name last_name language timezone notes
      email officePhone cellPhone fax title address1 address2 city state zip country
      includeInCorrespondence)) 2 =
      some (JValue.str (if language.length < 2 then "en" else language)) ∧
    opValueAt (json_loads (contact_update_body first_name last_name language timezone notes
      email officePhone cellPhone fax title address1 address2 city state zip country
      includeInCorrespondence)) 15 =
      some (JValue.str (if timezone.length < 4 then "America/Chicago" else timezone)) := by
  have hadd := add_contact_body_loads first_name last_name language timezone notes email
    officePhone cellPhone fax title address1 address2 includeInCorrespondence hfn hln hlang
    htz hnotes hem hop hcp hfx htl ha1 ha2 hic
  have hupd := contact_update_body_loads first_name last_name language timezone notes email
    officePhone cellPhone fax title address1 address2 city state zip country
    includeInCorrespondence hfn hln hlang htz hnotes hem hop hcp hfx htl ha1 ha2 hci hst
    hzp hco hic
  refine ⟨?_, ?_, ?_, ?_⟩
  · rw [hadd]; rfl
  · rw [hadd]; rfl
  · rw [hupd]; rfl
  · rw [hupd]; rfl

/-- C3 witness: the amended theorem at language "" (defaulted to "en") and
timezone "America/New_York" (4 or more characters, passed through). -/
theorem C3_defaulting_witness :
    strChunkOk "".data = true ∧
    bodyFieldStr (json_loads (add_contact_body "Ann" "Lee" "" "America/New_York" "n1" "a@b.co"
      "100" "101" "102" "Mgr" "1 Main" "Apt 2" "true")) "language" =
      some (JValue.str "en") ∧
    bodyFieldStr (json_loads (add_contact_body "Ann" "Lee" "" "America/New_York" "n1" "a@b.co"
      "100" "101" "102" "Mgr" "1 Main" "Apt 2" "true")) "timezone" =
      some (JValue.str "America/New_York") := by
  have h := C3_defaulting "Ann" "Lee" "" "America/New_York" "n1" "a@b.co" "100" "101" "102"
    "Mgr" "1 Main" "Apt 2" "Springfield" "IL" "62704" "US" "true" (by decide) (by decide)
    (by decide) (by decide) (by decide) (by decide) (by decide) (by decide) (by decide)
    (by decide) (by decide) (by decide) (by decide) (by decide) (by decide) (by decide)
    (by decide)
  exact ⟨by decide, h.1, h.2.1⟩

/-- C4, counterexample to the claim as stated: contact_update embeds a first
name containing a backslash unescaped, so "a\x5cb" reaches json.loads as the
escape sequence backslash-b and the body's value is "a" followed by a
backspace character, not the string as given. -/
theorem C4_counterexample :
    opValueAt (json_loads (contact_update_body "a\x5cb" "Lee" "en" "America/New_York" "n"
      "a@b.co" "" "" "" "" "" "" "" "" "" "" "")) 0 = some (JValue.str "a\x08") ∧
    ¬(("a\x08" : String) = "a\x5cb") :=
  ⟨rfl, by decide⟩

/-- C4, amended: for field values free of double quotes, backslashes and
control characters, add_contact_to_account and contact_update remove every
double-quote and single-quote character from notes before embedding it (only
single quotes can remain to be removed under the proviso), and every other
string field appears in the parsed body exactly as given. -/
theorem C4_sanitization (first_name last_name language timezone notes email officePhone
    cellPhone fax title address1 address2 city state zip country
    includeInCorrespondence : String)
    (hfn : strChunkOk first_name.data = true) (hln : strChunkOk last_name.data = true)
    (hlang : strChunkOk language.data = true) (htz : strChunkOk timezone.data = true)
    (hnotes : strChunkOk notes.data = true) (hem : strChunkOk email.data = true)
    (hop : strChunkOk officePhone.data = true) (hcp : strChunkOk cellPhone.data = true)
    (hfx : strChunkOk fax.data = true) (htl : strChunkOk title.data = true)
    (ha1 : strChunkOk address1.data = true) (ha2 : strChunkOk address2.data = true)
    (hci : strChunkOk city.data = true) (hst : strChunkOk state.data = true)
    (hzp : strChunkOk zip.data = true) (hco : strChunkOk country.data = true)
    (hic : strChunkOk includeInCorrespondence.data = true) :
    json_loads (add_contact_body first_name last_name language timezone notes email officePhone
      cellPhone fax title address1 address2 includeInCorrespondence) =
      some (JValue.obj [("firstName", JValue.str first_name), ("lastName", JValue.str last_name),
        ("language", JValue.str (defaultLanguage language)),
        ("notes", JValue.str (stripNotes notes)), ("email", JValue.str email),
        ("officePhone", JValue.str officePhone), ("cellPhone", JValue.str cellPhone),
        ("fax", JValue.str fax), ("title", JValue.str title),
        ("address1", JValue.str address1), ("address2", JValue.str address2),
        ("timezone", JValue.str (defaultTimezone timezone)),
        ("IncludeInCorrespondence", JValue.str includeInCorrespondence)]) ∧
    json_loads (contact_update_body first_name last_name language timezone notes email
      officePhone cellPhone fax title address1 address2 city state zip country
      includeInCorrespondence) =
      some (JValue.arr [replaceOp first_name "FirstName", replaceOp last_name "LastName",
        replaceOp (defaultLanguage language) "Language",
        replaceOp (stripNotes notes) "Notes", replaceOp email "Email",
        replaceOp officePhone "OfficePhone", replaceOp cellPhone "CellPhone",
        replaceOp fax "Fax", replaceOp title "Title", replaceOp address1 "Address1",
        replaceOp address2 "Address2", replaceOp city "City", replaceOp state "State",
        replaceOp zip "Zip", replaceOp country "Country",
        replaceOp (defaultTimezone timezone) "TimeZone",
        replaceOp includeInCorrespondence "IncludeInCorrespondence"]) :=
  ⟨add_contact_body_loads first_name last_name language timezone notes email officePhone
    cellPhone fax title address1 address2 includeInCorrespondence hfn hln hlang htz hnotes
    hem hop hcp hfx htl ha1 ha2 hic,
   contact_update_body_loads first_name last_name language timezone notes email officePhone
    cellPhone fax title address1 address2 city state zip country includeInCorrespondence
    hfn hln hlang htz hnotes hem hop hcp hfx htl ha1 ha2 hci hst hzp hco hic⟩

/-- C4 witness: the amended theorem at notes containing a single quote, which
is stripped, while the other fields pass through as given. -/
theorem C4_sanitization_witness :
    strChunkOk "Jim\x27s notes".data = true ∧
    bodyFieldStr (json_loads (add_contact_body "Ann" "Lee" "en" "America/New_York"
      "Jim\x27s notes" "a@b.co" "100" "101" "102" "Mgr" "1 Main" "Apt 2" "true")) "notes" =
      some (JValue.str "Jims notes") ∧
    bodyFieldStr (json_loads (add_contact_body "Ann" "Lee" "en" "America/New_York"
      "Jim\x27s notes" "a@b.co" "100" "101" "102" "Mgr" "1 Main" "Apt 2" "true")) "email" =
      some (JValue.str "a@b.co") := by
  have h := C4_sanitization "Ann" "Lee" "en" "America/New_York" "Jim\x27s notes" "a@b.co"
    "100" "101" "102" "Mgr" "1 Main" "Apt 2" "Springfield" "IL" "62704" "US" "true"
    (by decide) (by decide) (by decide) (by decide) (by decide) (by decide) (by decide)
    (by decide) (by decide) (by decide) (by decide) (by decide) (by decide) (by decide)
    (by decide) (by decide) (by decide)
  refine ⟨by decide, ?_, ?_⟩
  · rw [h.1]; rfl
  · rw [h.1]; rfl

theorem contactOf_obj_inv (m : List (String × JValue)) (c : ContactR)
    (h : contactOf (JValue.obj m) = some c) :
    lookupKey m "firstName" = some (JValue.str c.firstName) ∧
    lookupKey m "lastName" = some (JValue.str c.lastName) ∧
    lookupKey m "id" = some (JValue.str c.id) := by
  rw [contactOf.eq_def] at h
  split at h
  · rename_i l2 heq
    injection heq with heq2
    subst heq2
    split at h
    · rename_i f l i heq1 heq2 heq3
      cases h
      exact ⟨heq1, heq2, heq3⟩
    · exact absurd h (by simp)
  · rename_i hx
    exact (hx m rfl).elim

theorem findContactId_cons_pos (c : ContactR) (cs : List ContactR) (fn ln : String)
    (h : (c.firstName == fn && c.lastName == ln) = true) :
    findContactId (c :: cs) fn ln = c.id := by
  unfold findContactId
  rw [List.find?_cons_of_pos (p := fun c => c.firstName == fn && c.lastName == ln) cs h]

theorem findContactId_cons_neg (c : ContactR) (cs : List ContactR) (fn ln : String)
    (h : (c.firstName == fn && c.lastName == ln) = false) :
    findContactId (c :: cs) fn ln = findContactId cs fn ln := by
  unfold findContactId
  rw [List.find?_cons_of_neg (p := fun c => c.firstName == fn && c.lastName == ln) cs
    (by simp [h])]

theorem scanContacts_spec : ∀ (l : List JValue) (cs : List ContactR) (fn ln : String),
    contactsOf l = some cs → scanContacts fn ln l = JValue.str (findContactId cs fn ln) := by
  intro l
  induction l with
  | nil =>
    intro cs fn ln h
    simp only [contactsOf, Option.some.injEq] at h
    subst h
    rfl
  | cons j rest ih =>
    intro cs fn ln h
    rw [contactsOf.eq_def] at h
    simp only [] at h
    cases hcj : contactOf j with
    | none => rw [hcj] at h; exact absurd h (by simp)
    | some c =>
      cases hcr : contactsOf rest with
      | none => rw [hcj, hcr] at h; exact absurd h (by simp)
      | some cs2 =>
        rw [hcj, hcr] at h
        simp only [Option.some.injEq] at h
        subst h
        obtain ⟨m, rfl, hf, hl2, hid⟩ : ∃ m, j = JValue.obj m ∧
            lookupKey m "firstName" = some (JValue.str c.firstName) ∧
            lookupKey m "lastName" = some (JValue.str c.lastName) ∧
            lookupKey m "id" = some (JValue.str c.id) := by
          cases j with
          | obj m => exact ⟨m, rfl, contactOf_obj_inv m c hcj⟩
          | str s => exact absurd hcj (by simp [contactOf])
          | num s => exact absurd hcj (by simp [contactOf])
          | bool b => exact absurd hcj (by simp [contactOf])
          | null => exact absurd hcj (by simp [contactOf])
          | arr a => exact absurd hcj (by simp [contactOf])
        rw [scanContacts.eq_def]
        simp only [pySubscript, hf]
        simp only [jeqStr]
        by_cases hfc : c.firstName == fn
        · simp only [hfc, if_true, hl2, jeqStr]
          by_cases hlc : c.lastName == ln
          · simp only [hlc, if_true, hid]
            rw [findContactId_cons_pos c cs2 fn ln (by simp [hfc, hlc])]
          · simp only [hlc, Bool.false_eq_true, if_false]
            rw [findContactId_cons_neg c cs2 fn ln (by simp [hlc])]
            exact ih cs2 fn ln hcr
        · simp only [hfc, Bool.false_eq_true, if_false]
          rw [findContactId_cons_neg c cs2 fn ln (by simp [hfc])]
          exact ih cs2 fn ln hcr

/-- C5, confirmed: when the fetch fails contact_internalid_lookup returns the
empty string, and when the fetch yields a list of well-formed contacts it
returns the id of the first contact in list order whose firstName and
lastName equal the given names under case-sensitive string equality, or the
empty string when none matches; in all cases the except handler keeps errors
from the caller. -/
theorem C5_first_match (l : List JValue) (cs : List ContactR) (firstname lastname : String)
    (h : contactsOf l = some cs) :
    contact_internalid_lookup none firstname lastname = JValue.str "" ∧
    contact_internalid_lookup (some (JValue.arr l)) firstname lastname =
      JValue.str (findContactId cs firstname lastname) :=
  ⟨rfl, scanContacts_spec l cs firstname lastname h⟩

/-- C5 witness: the spec's example list, searched for (Jo, Smith) and
(Jo, Nobody). -/
theorem C5_first_match_witness :
    contactsOf [JValue.obj [("firstName", JValue.str "Jo"), ("lastName", JValue.str "Doe"),
        ("id", JValue.str "1")],
      JValue.obj [("firstName", JValue.str "Jo"), ("lastName", JValue.str "Smith"),
        ("id", JValue.str "2")]] = some [⟨"Jo", "Doe", "1"⟩, ⟨"Jo", "Smith", "2"⟩] ∧
    contact_internalid_lookup (some (JValue.arr [JValue.obj [("firstName", JValue.str "Jo"),
        ("lastName", JValue.str "Doe"), ("id", JValue.str "1")],
      JValue.obj [("firstName", JValue.str "Jo"), ("lastName", JValue.str "Smith"),
        ("id", JValue.str "2")]])) "Jo" "Smith" = JValue.str "2" ∧
    contact_internalid_lookup (some (JValue.arr [JValue.obj [("firstName", JValue.str "Jo"),
        ("lastName", JValue.str "Doe"), ("id", JValue.str "1")],
      JValue.obj [("firstName", JValue.str "Jo"), ("lastName", JValue.str "Smith"),
        ("id", JValue.str "2")]])) "Jo" "Nobody" = JValue.str "" := by
  refine ⟨rfl, ?_, ?_⟩
  · exact (C5_first_match [JValue.obj [("firstName", JValue.str "Jo"),
      ("lastName", JValue.str "Doe"), ("id", JValue.str "1")],
      JValue.obj [("firstName", JValue.str "Jo"), ("lastName", JValue.str "Smith"),
      ("id", JValue.str "2")]] [⟨"Jo", "Doe", "1"⟩, ⟨"Jo", "Smith", "2"⟩] "Jo" "Smith" rfl).2
  · exact (C5_first_match [JValue.obj [("firstName", JValue.str "Jo"),
      ("lastName", JValue.str "Doe"), ("id", JValue.str "1")],
      JValue.obj [("firstName", JValue.str "Jo"), ("lastName", JValue.str "Smith"),
      ("id", JValue.str "2")]] [⟨"Jo", "Doe", "1"⟩, ⟨"Jo", "Smith", "2"⟩] "Jo" "Nobody" rfl).2

/-- C6, evaluation at the failing input: an email argument containing a
backslash makes json.loads raise at source line 571, before return_value is
initialised at line 575, so the except handler's read of return_value at line
597 raises UnboundLocalError for every possible outcome of the PATCH - the
claimed silent empty return does not happen. -/
theorem C6_unbound_local (world : Option HttpResult) :
    contact_update world "tok" "T1" "A100" "C1" "Ann" "Lee" "en" "America/New_York" "note"
      "\x5cx" "5550100" "5550101" "5550102" "Dr" "1 Main" "Apt 2" "Springfield" "IL" "62704"
      "US" "2022-01-01" "jj" "true" = Except.error PyErr.unboundLocal := rfl

/-- C7, counterexample to the claim as stated: when requests.post itself
raises (world = none), the except handler completes but line 283 reads the
unbound local contact_response, so an UnboundLocalError propagates instead of
the claimed return of the decoded response body. -/
theorem C7_counterexample :
    add_contact_to_account none "tok" "T1" "A100" "Ann" "Lee" "en" "America/New_York" "note"
      "a@b.co" "5550100" "5550101" "5550102" "Dr" "1 Main" "Apt 2" "Springfield" "IL" "62704"
      "US" "2022-01-01" "jj" "true" = Except.error PyErr.unboundLocal := rfl

/-- C7, amended: when the body builds, the request completes with a 4xx or
5xx status and the failed response's body decodes as JSON,
add_contact_to_account logs the failure and returns the decoded body of the
failed response; when the request itself raises, or the failed response body
is not JSON, an error propagates instead. -/
theorem C7_failed_request_returns_body (r : HttpResult) (access_token tenant_id account_number
    first_name last_name language timezone notes email officePhone cellPhone fax title
    address1 address2 city state zip country updatedOn updatedBy
    includeInCorrespondence : String) (b v : JValue)
    (hb : json_loads (add_contact_body first_name last_name language timezone notes email
      officePhone cellPhone fax title address1 address2 includeInCorrespondence) = some b)
    (hs : 400 ≤ r.status ∧ r.status < 600)
    (hv : json_loads r.bodyText = some v) :
    add_contact_to_account (some r) access_token tenant_id account_number first_name last_name
      language timezone notes email officePhone cellPhone fax title address1 address2 city
      state zip country updatedOn updatedBy includeInCorrespondence = Except.ok v := by
  unfold add_contact_to_account
  rw [hb]
  simp only []
  rw [if_pos hs, responseJson, hv]

/-- C7 witness: the amended theorem at a 404 response with a JSON body. -/
theorem C7_failed_request_witness :
    json_loads (add_contact_body "Ann" "Lee" "en" "America/New_York" "note" "a@b.co" "100"
      "101" "102" "Dr" "1 Main" "Apt 2" "true") =
      some (JValue.obj [("firstName", JValue.str "Ann"), ("lastName", JValue.str "Lee"),
        ("language", JValue.str "en"), ("notes", JValue.str "note"),
        ("email", JValue.str "a@b.co"), ("officePhone", JValue.str "100"),
        ("cellPhone", JValue.str "101"), ("fax", JValue.str "102"),
        ("title", JValue.str "Dr"), ("address1", JValue.str "1 Main"),
        ("address2", JValue.str "Apt 2"), ("timezone", JValue.str "America/New_York"),
        ("IncludeInCorrespondence", JValue.str "true")]) ∧
    (400 ≤ 404 ∧ 404 < 600) ∧
    json_loads "\x7b\x22error\x22 : \x22denied\x22\x7d" =
      some (JValue.obj [("error", JValue.str "denied")]) ∧
    add_contact_to_account (some ⟨404, "\x7b\x22error\x22 : \x22denied\x22\x7d"⟩) "tok" "T1"
      "A100" "Ann" "Lee" "en" "America/New_York" "note" "a@b.co" "100" "101" "102" "Dr"
      "1 Main" "Apt 2" "Springfield" "IL" "62704" "US" "2022-01-01" "jj" "true" =
      Except.ok (JValue.obj [("error", JValue.str "denied")]) :=
  ⟨rfl, by omega, rfl,
    C7_failed_request_returns_body ⟨404, "\x7b\x22error\x22 : \x22denied\x22\x7d"⟩ "tok" "T1"
      "A100" "Ann" "Lee" "en" "America/New_York" "note" "a@b.co" "100" "101" "102" "Dr"
      "1 Main" "Apt 2" "Springfield" "IL" "62704" "US" "2022-01-01" "jj" "true" _ _ rfl
      (by decide) rfl⟩

/-- C8, counterexample to the claim as stated: raise_for_status raises only
for 4xx and 5xx statuses, so on a 300 response whose body carries an
accessToken login returns the token instead of failing with an HTTP error,
although 300 is not a 2xx status. -/
theorem C8_counterexample :
    login (some ⟨300, "\x7b\x22accessToken\x22 : \x22tok\x22\x7d"⟩) "e@x.co" "pw" =
      Except.ok (JValue.str "tok") ∧ ¬(200 ≤ 300 ∧ 300 ≤ 299) :=
  ⟨rfl, by omega⟩

/-- C8, amended: once its POST completes, login behaves as login_spec: a 4xx
or 5xx status fails with an HTTP error; on any other status (all 2xx in
particular) the decoded body's accessToken field is returned when present, a
2xx body lacking the field fails with a key-lookup error, and a body that is
not JSON fails with a decode error - every failure propagates to the
caller. -/
theorem C8_login_spec (r : HttpResult) (email password : String) :
    login (some r) email password = login_spec r := by
  unfold login login_spec raiseForStatus
  simp only []
  by_cases h : 400 ≤ r.status ∧ r.status < 600
  · simp only [if_pos h]
  · simp only [if_neg h, responseJson]
    cases hj : json_loads r.bodyText with
    | none => rfl
    | some j => rfl

/-- C9, confirmed: neither the request built and sent nor the returned value
of add_contact_to_account or contact_update depends on updatedOn or
updatedBy; two calls whose arguments differ only in those two parameters are
indistinguishable. -/
theorem C9_updated_fields_no_influence (world : Option HttpResult) (access_token tenant_id
    account_number contact_id first_name last_name language timezone notes email officePhone
    cellPhone fax title address1 address2 city state zip country updatedOn updatedBy
    updatedOn2 updatedBy2 includeInCorrespondence : String) :
    add_contact_request access_token tenant_id account_number first_name last_name language
        timezone notes email officePhone cellPhone fax title address1 address2 city state zip
        country updatedOn updatedBy includeInCorrespondence =
      add_contact_request access_token tenant_id account_number first_name last_name language
        timezone notes email officePhone cellPhone fax title address1 address2 city state zip
        country updatedOn2 updatedBy2 includeInCorrespondence ∧
    add_contact_to_account world access_token tenant_id account_number first_name last_name
        language timezone notes email officePhone cellPhone fax title address1 address2 city
        state zip country updatedOn updatedBy includeInCorrespondence =
      add_contact_to_account world access_token tenant_id account_number first_name last_name
        language timezone notes email officePhone cellPhone fax title address1 address2 city
        state zip country updatedOn2 updatedBy2 includeInCorrespondence ∧
    contact_update_request access_token tenant_id account_number contact_id first_name
        last_name language timezone notes email officePhone cellPhone fax title address1
        address2 city state zip country updatedOn updatedBy includeInCorrespondence =
      contact_update_request access_token tenant_id account_number contact_id first_name
        last_name language timezone notes email officePhone cellPhone fax title address1
        address2 city state zip country updatedOn2 updatedBy2 includeInCorrespondence ∧
    contact_update world access_token tenant_id account_number contact_id first_name last_name
        language timezone notes email officePhone cellPhone fax title address1 address2 city
        state zip country updatedOn updatedBy includeInCorrespondence =
      contact_update world access_token tenant_id account_number contact_id first_name
        last_name language timezone notes email officePhone cellPhone fax title address1
        address2 city state zip country updatedOn2 updatedBy2 includeInCorrespondence :=
  ⟨rfl, rfl, rfl, rfl⟩

/-- C10, confirmed: account_internalid_lookup reads tenantId, id and custNo
in that order at source lines 360-362; a decoded response lacking tenantId or
custNo raises a KeyError that the handler turns into the empty string, even
when a valid id field is present. -/
theorem C10_dead_reads_gate (r : HttpResult) (access_token tenant_id account_number : String)
    (j idv : JValue) (hj : json_loads r.bodyText = some j)
    (hid : pySubscript j "id" = Except.ok idv)
    (hmiss : pySubscript j "tenantId" = Except.error PyErr.keyError ∨
      pySubscript j "custNo" = Except.error PyErr.keyError) :
    account_internalid_lookup (some r) access_token tenant_id account_number =
      JValue.str "" := by
  unfold account_internalid_lookup
  simp only []
  by_cases hs : 400 ≤ r.status ∧ r.status < 600
  · rw [if_pos hs]
  · rw [if_neg hs, hj]
    simp only []
    rcases hmiss with hm | hm
    · rw [hm]
    · cases ht : pySubscript j "tenantId" with
      | error e => rfl
      | ok t =>
        simp only []
        rw [hid]
        simp only []
        rw [hm]

/-- C10 witness: a decoded account object with a valid id and tenantId but no
custNo yields the empty string. -/
theorem C10_dead_reads_witness :
    json_loads "\x7b\x22id\x22 : \x22X7\x22, \x22tenantId\x22 : \x22T1\x22\x7d" =
      some (JValue.obj [("id", JValue.str "X7"), ("tenantId", JValue.str "T1")]) ∧
    pySubscript (JValue.obj [("id", JValue.str "X7"), ("tenantId", JValue.str "T1")]) "id" =
      Except.ok (JValue.str "X7") ∧
    pySubscript (JValue.obj [("id", JValue.str "X7"), ("tenantId", JValue.str "T1")]) "custNo" =
      Except.error PyErr.keyError ∧
    account_internalid_lookup (some ⟨200,
      "\x7b\x22id\x22 : \x22X7\x22, \x22tenantId\x22 : \x22T1\x22\x7d"⟩) "tok" "T1" "A100" =
      JValue.str "" :=
  ⟨rfl, rfl, rfl,
    C10_dead_reads_gate ⟨200, "\x7b\x22id\x22 : \x22X7\x22, \x22tenantId\x22 : \x22T1\x22\x7d"⟩
      "tok" "T1" "A100" (JValue.obj [("id", JValue.str "X7"), ("tenantId", JValue.str "T1")])
      (JValue.str "X7") rfl rfl (Or.inr rfl)⟩
